import Mathlib

/-!
# Verification of the ts-check diagnostic-enrichment core

Shallow embedding, in Lean 4, of the core of the `ts-check` tool:

* `src/message_parser.rs` — pattern extraction over diagnostic messages,
* `src/tokenizer.rs`      — the approximate lexer,
* `src/token_utils.rs`    — queries over token sequences,
* `src/error/codes.rs`    — the error-code classification table,
* `src/parser.rs`         — the tsc output-line parser,
* `src/diagnostics/suggestions.rs` — the per-code suggestion dispatcher.

Conventions of the embedding:

* Rust `&str`/`String` values that are scanned character by character are
  modelled as `List Char`; values only compared or matched against a fixed
  table are modelled as `String`.
* Rust `usize`/`u16`/`u32` are modelled as `Nat`; the numeric-string parsers
  carry the explicit Rust overflow bounds.
* ANSI colouring (the `colored` crate) only wraps text in escape sequences;
  it is modelled as the identity on strings.  Every property proved about
  suggestion text is a substring property that is unaffected by styling.
* Loops whose termination is not structural are compiled to fuel-indexed
  recursions with fuel that provably dominates the iteration count, plus
  fuel-irrelevance lemmas; all definitions are executable.
-/

namespace TsCheck


/-! ## Generic string scanning helpers (Rust `str` primitives) -/

/-- Rust `str::split(sep: char)` on a character list.  `List.splitOn` has
exactly the Rust iterator's semantics: the result always has one more
segment than there are separators (so `[]` splits to `[[]]`). -/
def splitCh (sep : Char) (l : List Char) : List (List Char) :=
  l.splitOn sep

/-- Least index `i` such that `needle` occurs in `hay` starting at `i`
(Rust `str::find` with a `&str` pattern). -/
def findSubIdx (needle : List Char) : List Char → Option Nat
  | [] => if needle.isPrefixOf [] then some 0 else none
  | c :: rest =>
    if needle.isPrefixOf (c :: rest) then some 0
    else (findSubIdx needle rest).map (· + 1)

/-- Rust `str::contains` with a `&str` pattern. -/
def containsSub (needle hay : List Char) : Bool :=
  (findSubIdx needle hay).isSome

/-- Greatest index `j ≤ i` such that `needle` occurs in `hay` starting
at `j`, by descending scan. -/
def rfindSubAux (needle hay : List Char) : Nat → Option Nat
  | 0 => if needle.isPrefixOf hay then some 0 else none
  | i + 1 =>
    if needle.isPrefixOf (hay.drop (i + 1)) then some (i + 1)
    else rfindSubAux needle hay i

/-- Rust `str::rfind` with a `&str` pattern: index of the last occurrence
of `needle` in `hay`. -/
def rfindSub (needle hay : List Char) : Option Nat :=
  rfindSubAux needle hay hay.length

/-! ## Message parser (`src/message_parser.rs`) -/

/-- `extract_quoted_value(msg, occurrence)`: `msg.split('\'').nth(occurrence)`. -/
def extract_quoted_value (msg : List Char) (occurrence : Nat) : Option (List Char) :=
  (splitCh '\'' msg).get? occurrence

/-- `extract_first_quoted(msg)`. -/
def extract_first_quoted (msg : List Char) : Option (List Char) :=
  extract_quoted_value msg 1

/-- `extract_second_quoted(msg)`. -/
def extract_second_quoted (msg : List Char) : Option (List Char) :=
  extract_quoted_value msg 3

/-- `extract_third_quoted(msg)`. -/
def extract_third_quoted (msg : List Char) : Option (List Char) :=
  extract_quoted_value msg 5

/-- The body of `read_quoted`'s collection loop inside `parse_ts2322_error`:
consume characters up to and including the next `'` (or to end of input),
returning the collected content and the remainder. -/
def collectUntilQuote : List Char → List Char × List Char
  | [] => ([], [])
  | c :: rest =>
    if c = '\'' then ([], rest)
    else ((collectUntilQuote rest).1.cons c, (collectUntilQuote rest).2)

/-- The secondary scan of `parse_ts2322_error`: skip to the next `'`, then
collect up to the following `'` (or end of input); `none` when no `'` is
left at all. -/
def findNextQuoted : List Char → Option (List Char)
  | [] => none
  | c :: rest =>
    if c = '\'' then some (collectUntilQuote rest).1
    else findNextQuoted rest

/-- The scanning loop of `parse_ts2322_error` (`src/message_parser.rs:43-69`).
The Rust loop consumes one character, then checks through a cloned lookahead
that the next five characters are `y`, `p`, `e`, `' '`, `'`; that chain of
comparisons is exactly an `"ype '"`-prefix test on the unconsumed rest.  On
a hit it consumes the four lookahead characters plus the opening quote
(`rest.drop 5`), reads the quoted `from` value, then scans for the next
quoted value as `to` and returns.  When a lookahead comparison runs off the
end of the input the Rust `?` operators return `None` for the whole
function, which coincides with letting the loop run to exhaustion, so the
embedding just recurses. -/
def ts2322Loop : List Char → Option (List Char × List Char)
  | [] => none
  | _ :: rest =>
    if ("ype '".toList).isPrefixOf rest then
      match findNextQuoted (collectUntilQuote (rest.drop 5)).2 with
      | some secondary => some ((collectUntilQuote (rest.drop 5)).1, secondary)
      | none => none
    else ts2322Loop rest

/-- `parse_ts2322_error(msg)`. -/
def parse_ts2322_error (msg : List Char) : Option (List Char × List Char) :=
  ts2322Loop msg

/-- `parse_property_missing_error(msg)`: `rfind("type '")`, then the quoted
value immediately after the marker. -/
def parse_property_missing_error (msg : List Char) : Option (List Char) :=
  match rfindSub ('t' :: 'y' :: 'p' :: 'e' :: ' ' :: '\'' :: []) msg with
  | none => none
  | some startIndex =>
    if containsSub ['\''] (msg.drop (startIndex + 6)) then
      some ((msg.drop (startIndex + 6)).takeWhile (· ≠ '\''))
    else none

/-- `extract_object_type(msg, marker)` (`src/message_parser.rs:108-113`). -/
def extract_object_type (msg marker : List Char) : Option (List Char) :=
  match findSubIdx marker msg with
  | none => none
  | some idx =>
    let rest := msg.drop (idx + marker.length)
    if containsSub ['\''] rest then some (rest.takeWhile (· ≠ '\'')) else none

/-- Rust `str::trim`, restricted to the whitespace characters that occur in
compiler messages (Unicode `White_Space` beyond these is irrelevant here
because `parse_object_properties` is only fed quoted type strings). -/
def trimL (l : List Char) : List Char :=
  (l.dropWhile Char.isWhitespace).reverse.dropWhile Char.isWhitespace |>.reverse

/-- Insert into an association-list representation of a `HashMap`: replace
the value of an existing key in place, append a new key at the end.  The
list order is the key's first-insertion order; `HashMap` itself attaches no
meaning to any order, which is modelled by quantifying over iteration
orders below. -/
def insertAssoc (m : List (List Char × List Char)) (k v : List Char) :
    List (List Char × List Char) :=
  if m.any (fun p => p.1 = k) then
    m.map (fun p => if p.1 = k then (k, v) else p)
  else m ++ [(k, v)]

/-- Key lookup in the association-list map. -/
def lookupAssoc (m : List (List Char × List Char)) (k : List Char) :
    Option (List Char) :=
  (m.find? (fun p => p.1 = k)).map (·.2)

/-- The property-insertion loop body of `parse_object_properties`
(`src/message_parser.rs:127-139`): trim each `;`-separated chunk, skip the
empty ones, split the rest at the first `:` into key and value. -/
def insertProp (m : List (List Char × List Char)) (prop : List Char) :
    List (List Char × List Char) :=
  let prop := trimL prop
  if prop.isEmpty then m
  else
    match findSubIdx [':'] prop with
    | none => m
    | some colonPos =>
      insertAssoc m (trimL (prop.take colonPos)) (trimL (prop.drop (colonPos + 1)))

/-- `parse_object_properties(obj_type)` (`src/message_parser.rs:115-142`),
with the `HashMap` modelled as an insertion-ordered association list. -/
def parse_object_properties (objType : List Char) : List (List Char × List Char) :=
  let objType := trimL objType
  match objType with
  | '{' :: rest =>
    if rest ≠ [] ∧ rest.getLast? = some '}' then
      (splitCh ';' rest.dropLast).foldl insertProp []
    else []
  | _ => []

/-- The mismatch-collection loop of `parse_ts2345_error`
(`src/message_parser.rs:97-103`), made explicit in the order `iterOrder` in
which the Rust `for (key, expected_type) in &expected_props` loop happens to
visit the `HashMap`'s entries.  A `HashMap`'s iteration order is unspecified
(and randomly seeded), so theorems quantify over all permutations of the
key set. -/
def ts2345Mismatches (provided expected : List (List Char × List Char))
    (iterOrder : List (List Char)) : List (List Char × List Char × List Char) :=
  iterOrder.filterMap fun key =>
    match lookupAssoc expected key, lookupAssoc provided key with
    | some expectedType, some providedType =>
      if providedType ≠ expectedType then some (key, providedType, expectedType)
      else none
    | _, _ => none

/-- `parse_ts2345_error(msg)`, parameterised by the `HashMap` iteration
order of the expected-object property map. -/
def parse_ts2345_error_withOrder (iterOrder : List (List Char)) (msg : List Char) :
    Option (List (List Char × List Char × List Char)) :=
  match extract_object_type msg ("Argument of type '".toList),
        extract_object_type msg ("to parameter of type '".toList) with
  | some providedObj, some expectedObj =>
    some (ts2345Mismatches (parse_object_properties providedObj)
      (parse_object_properties expectedObj) iterOrder)
  | _, _ => none

/-- The key set of the expected-object property map of a TS2345 message, in
declared (first-occurrence) order; an iteration order of the `HashMap` is
any permutation of this list. -/
def ts2345ExpectedKeys (msg : List Char) : List (List Char) :=
  match extract_object_type msg ("to parameter of type '".toList) with
  | some expectedObj => (parse_object_properties expectedObj).map Prod.fst
  | none => []

/-- `parse_ts2345_error` when the `HashMap` happens to iterate in declared
property order. -/
def parse_ts2345_error_declared (msg : List Char) :
    Option (List (List Char × List Char × List Char)) :=
  parse_ts2345_error_withOrder (ts2345ExpectedKeys msg) msg

/-! ## Tokenizer (`src/tokenizer.rs`)

The lexer state is `(remaining characters, byte position, line, column)`;
`src.get(self.position..)` in the Rust code always views the yet-unconsumed
suffix, which the embedding carries directly as `rem` (the byte position is
maintained alongside, advanced by `Char.utf8Size` exactly as Rust advances
by `len_utf8`).  Rust's `char::is_alphabetic`/`is_numeric` are full Unicode
classes; the embedding is parameterised over them (`CharClasses`), so every
theorem below holds for the actual Unicode predicates.  `is_digit(10)` and
`char::is_whitespace` are modelled exactly (`Char.isDigit`; the Unicode
`White_Space` list). -/

/-- The Unicode `White_Space` code points: Rust's `char::is_whitespace`. -/
def rustIsWhitespace (c : Char) : Bool :=
  c.toNat ∈ [0x09, 0x0A, 0x0B, 0x0C, 0x0D, 0x20, 0x85, 0xA0, 0x1680,
    0x2000, 0x2001, 0x2002, 0x2003, 0x2004, 0x2005, 0x2006, 0x2007,
    0x2008, 0x2009, 0x200A, 0x2028, 0x2029, 0x202F, 0x205F, 0x3000]

/-- The Unicode character classes the tokenizer dispatches on.
`isAlphabetic` and `isNumeric` stand for Rust's `char::is_alphabetic` and
`char::is_numeric`; `is_alphanumeric` is their disjunction by definition. -/
structure CharClasses where
  isAlphabetic : Char → Bool
  isNumeric : Char → Bool

/-- ASCII instantiation of the classes, used for concrete test inputs
(on ASCII text it agrees with the Unicode classes). -/
def asciiClasses : CharClasses :=
  { isAlphabetic := Char.isAlpha, isNumeric := fun c => c.isDigit }

/-- `TokenKind` (`src/tokenizer.rs:2-13`). -/
inductive TokenKind where
  | Identifier | Keyword | Symbol | TypeAnnotator | RightAngle | LeftAngle
  | LeftParen | RightParen | Comma | Literal
  deriving DecidableEq, Repr

/-- `Token` (`src/tokenizer.rs:16-23`): `start`/`endPos` are byte offsets
(half-open), `line` is 1-indexed, `column` is 0-indexed in characters. -/
structure Token where
  kind : TokenKind
  raw : List Char
  start : Nat
  endPos : Nat
  line : Nat
  column : Nat
  deriving DecidableEq, Repr

/-- The `Tokenizer` cursor state (`src/tokenizer.rs:26-32`): `rem` is the
unconsumed suffix of `src`, `pos` the byte offset of its start. -/
structure LexState where
  rem : List Char
  pos : Nat
  line : Nat
  col : Nat
  deriving DecidableEq, Repr

/-- `Tokenizer::new` (`src/tokenizer.rs:35-42`). -/
def initLexState (src : List Char) : LexState :=
  { rem := src, pos := 0, line := 1, col := 0 }

/-- The whitespace-skipping loop of `skip_stuff` (`src/tokenizer.rs:49-61`). -/
def skipWhitespace : List Char → Nat → Nat → Nat → LexState
  | [], pos, line, col => ⟨[], pos, line, col⟩
  | c :: rest, pos, line, col =>
    if rustIsWhitespace c then
      if c = '\n' then skipWhitespace rest (pos + c.utf8Size) (line + 1) 0
      else skipWhitespace rest (pos + c.utf8Size) line (col + 1)
    else ⟨c :: rest, pos, line, col⟩

/-- The comment-consuming loop of `skip_stuff` (`src/tokenizer.rs:69-76`):
consume up to and including the next newline (the Rust loop does not touch
`column` for non-newline characters). -/
def skipCommentBody : List Char → Nat → Nat → Nat → LexState
  | [], pos, line, col => ⟨[], pos, line, col⟩
  | c :: rest, pos, line, col =>
    if c = '\n' then ⟨rest, pos + c.utf8Size, line + 1, 0⟩
    else skipCommentBody rest (pos + c.utf8Size) line col

/-- The comment check of `skip_stuff` (`src/tokenizer.rs:64-77`): when the
unconsumed input starts with `//`, consume through the end of the line. -/
def skipCommentAfter (st1 : LexState) : LexState :=
  match st1.rem with
  | '/' :: '/' :: body => skipCommentBody body (st1.pos + 2) st1.line st1.col
  | _ => st1

/-- One iteration of the `skip_stuff` outer loop: whitespace, then one
`//` comment when present. -/
def skipStuffStep (st : LexState) : LexState :=
  skipCommentAfter (skipWhitespace st.rem st.pos st.line st.col)

/-- The `skip_stuff` outer loop (`src/tokenizer.rs:44-83`), fuel-indexed:
the Rust loop breaks as soon as an iteration makes no progress, and every
productive iteration consumes at least one character, so
`st.rem.length + 1` units of fuel always reach the fixpoint
(`skip_stuff_fuel_irrelevant` below). -/
def skipStuffFuel : Nat → LexState → LexState
  | 0, st => st
  | fuel + 1, st =>
    if (skipStuffStep st).rem.length < st.rem.length then
      skipStuffFuel fuel (skipStuffStep st)
    else skipStuffStep st

/-- `Tokenizer::skip_stuff`. -/
def skip_stuff (st : LexState) : LexState :=
  skipStuffFuel (st.rem.length + 1) st

/-- `Tokenizer::read_identifier` (`src/tokenizer.rs:85-96`), also returning
the consumed characters (Rust re-slices `src[start..position]`).  The
continuation class is Rust's `is_alphanumeric() || c == '_'`, where
`is_alphanumeric` is `is_alphabetic || is_numeric` by definition. -/
def read_identifier (cc : CharClasses) : List Char → Nat → Nat → Nat → List Char × LexState
  | [], pos, line, col => ([], ⟨[], pos, line, col⟩)
  | c :: rest, pos, line, col =>
    if cc.isAlphabetic c || cc.isNumeric c || c = '_' then
      (c :: (read_identifier cc rest (pos + c.utf8Size) line (col + 1)).1,
       (read_identifier cc rest (pos + c.utf8Size) line (col + 1)).2)
    else ([], ⟨c :: rest, pos, line, col⟩)

/-- `Tokenizer::read_number` (`src/tokenizer.rs:98-109`): digits and dots. -/
def read_number : List Char → Nat → Nat → Nat → List Char × LexState
  | [], pos, line, col => ([], ⟨[], pos, line, col⟩)
  | c :: rest, pos, line, col =>
    if c.isDigit || c = '.' then
      (c :: (read_number rest (pos + c.utf8Size) line (col + 1)).1,
       (read_number rest (pos + c.utf8Size) line (col + 1)).2)
    else ([], ⟨c :: rest, pos, line, col⟩)

/-- `Tokenizer::read_string_literal` (`src/tokenizer.rs:111-127`): consume
to a matching unescaped quote, skipping the character after each `\`;
unterminated literals consume to end of input. -/
def read_string_literal (quote : Char) : List Char → Nat → Nat → Nat → LexState
  | [], pos, line, col => ⟨[], pos, line, col⟩
  | c :: rest, pos, line, col =>
    if c = '\\' then
      match rest with
      | [] => ⟨[], pos + c.utf8Size, line, col + 1⟩
      | c2 :: rest2 =>
        read_string_literal quote rest2 (pos + c.utf8Size + c2.utf8Size) line (col + 2)
    else if c = quote then ⟨rest, pos + c.utf8Size, line, col + 1⟩
    else read_string_literal quote rest (pos + c.utf8Size) line (col + 1)

/-- `is_keyword` (`src/tokenizer.rs:230-275`). -/
def is_keyword (s : List Char) : Bool :=
  (["function", "let", "const", "var", "if", "else", "return", "true",
    "false", "type", "interface", "class", "enum", "export", "import",
    "from", "as", "new", "while", "for", "in", "of", "do", "switch",
    "case", "default", "break", "continue", "try", "catch", "finally",
    "throw", "debugger", "with", "async", "await", "public", "private",
    "protected", "static", "readonly"].map String.toList).contains s

/-- Single-character consumption used by the punctuation, symbol and
quote-opening branches of `Tokenizer::next` (Rust writes `position += 1`
there; all those characters are 1-byte, and the default branch advances by
`len_utf8`, which the uniform `utf8Size` covers). -/
def advance1 (c : Char) (rest : List Char) (st : LexState) : LexState :=
  ⟨rest, st.pos + c.utf8Size, st.line, st.col + 1⟩

/-- Build the token emitted by `Tokenizer::next` (`src/tokenizer.rs:208-218`):
`raw` is the consumed slice `src[start..end]`, recovered here as the chars
of `st1.rem` no longer present in `st'.rem`. -/
def mkTok (st1 st' : LexState) (kind : TokenKind) : Token :=
  { kind := kind,
    raw := st1.rem.take (st1.rem.length - st'.rem.length),
    start := st1.pos, endPos := st'.pos,
    line := st1.line, column := st1.col }

/-- The dispatch of `Tokenizer::next` after `skip_stuff`
(`src/tokenizer.rs:132-218`), on the already-skipped state. -/
def nextFrom (cc : CharClasses) (st1 : LexState) : Option (Token × LexState) :=
  match st1.rem with
  | [] => none
  | c :: rest =>
    if c = '(' then some (mkTok st1 (advance1 c rest st1) .LeftParen, advance1 c rest st1)
    else if c = ')' then some (mkTok st1 (advance1 c rest st1) .RightParen, advance1 c rest st1)
    else if c = '{' ∨ c = '}' ∨ c = '[' ∨ c = ']' ∨ c = ';' ∨ c = '.' then
      some (mkTok st1 (advance1 c rest st1) .Symbol, advance1 c rest st1)
    else if c = ':' then some (mkTok st1 (advance1 c rest st1) .TypeAnnotator, advance1 c rest st1)
    else if c = ',' then some (mkTok st1 (advance1 c rest st1) .Comma, advance1 c rest st1)
    else if c = '<' then some (mkTok st1 (advance1 c rest st1) .LeftAngle, advance1 c rest st1)
    else if c = '>' then some (mkTok st1 (advance1 c rest st1) .RightAngle, advance1 c rest st1)
    else if c = '"' ∨ c = '\'' ∨ c = '`' then
      some (mkTok st1
        (read_string_literal c rest (st1.pos + c.utf8Size) st1.line (st1.col + 1)) .Literal,
        read_string_literal c rest (st1.pos + c.utf8Size) st1.line (st1.col + 1))
    else if cc.isAlphabetic c || c = '_' then
      some (mkTok st1 (read_identifier cc st1.rem st1.pos st1.line st1.col).2
        (if is_keyword (read_identifier cc st1.rem st1.pos st1.line st1.col).1
         then .Keyword else .Identifier),
        (read_identifier cc st1.rem st1.pos st1.line st1.col).2)
    else if c.isDigit then
      some (mkTok st1 (read_number st1.rem st1.pos st1.line st1.col).2 .Literal,
        (read_number st1.rem st1.pos st1.line st1.col).2)
    else
      some (mkTok st1 (advance1 c rest st1) .Symbol, advance1 c rest st1)

/-- `Tokenizer::next` (`src/tokenizer.rs:129-219`). -/
def nextToken (cc : CharClasses) (st : LexState) : Option (Token × LexState) :=
  nextFrom cc (skip_stuff st)

/-- The `Tokenizer::tokenize` collection loop (`src/tokenizer.rs:221-227`),
fuel-indexed; every `nextToken` consumes at least one character
(`nextToken_rem_lt`), so fuel `st.rem.length + 1` reaches the fixpoint
(`tokenizeFuel_irrelevant`). -/
def tokenizeFuel (cc : CharClasses) : Nat → LexState → List Token
  | 0, _ => []
  | fuel + 1, st =>
    match nextToken cc st with
    | none => []
    | some (t, st') => t :: tokenizeFuel cc fuel st'

/-- `Tokenizer::tokenize`. -/
def tokenize (cc : CharClasses) (src : List Char) : List Token :=
  tokenizeFuel cc (src.length + 1) (initLexState src)

/-- The punctuation characters with a dedicated `Tokenizer::next` branch. -/
def isTokenizerPunct (c : Char) : Bool :=
  c ∈ ['(', ')', '{', '}', '[', ']', ';', '.', ':', ',', '<', '>']

/-- The quote characters opening a string/template literal. -/
def isTokenizerQuote (c : Char) : Bool :=
  c ∈ ['"', '\'', '`']

/-! ## Error-code classification (`src/error/codes.rs`) -/

/-- `ErrorCode` (`src/error/codes.rs:2-68`); `Unsupported` carries the
numeric code (`u16` in Rust, here a `Nat` that `from_str` only ever fills
with values `≤ 65535`). -/
inductive ErrorCode where
  | TypeMismatch | InlineTypeMismatch | PropertyMissingInType
  | PropertyDoesNotExist | TypeAssertionInJsNotAllowed | MappedTypeMustBeStatic
  | ObjectIsPossiblyNull | ObjectIsPossiblyUndefined | ObjectIsUnknown
  | MissingParameters | IncompatibleOverload | UncallableExpression
  | UnterminatedStringLiteral | IdentifierExpected | ExpressionExpected
  | DisallowedTrailingComma | SpreadParameterMustBeLast
  | UnexpectedKeywordOrIdentifier
  | NonExistentModuleImport | NoExportedMember | InvalidDefaultImport
  | IncorrectInterfaceImplementation | PropertyInClassNotAssignableToBase
  | ReadonlyPropertyAssignment
  | NoImplicitAny | UnintentionalComparison | DirectCastPotentiallyMistaken
  | SpreadArgumentMustBeTupleType | RightSideArithmeticMustBeEnumberable
  | LeftSideArithmeticMustBeEnumberable | InvalidShadowInScope
  | CannotFindIdentifier | MissingReturnValue | InvalidIndexType
  | InvalidIndexTypeSignature | ElementImplicitAnyInvalidIndexTypeForObject
  | TypoPropertyOnType | UniqueObjectMemberNames | UninitializedConst
  | YieldNotInGenerator | DeclaredButNeverUsed | ImportedButNeverUsed
  | UnreachableCode | ConstEnumsDisallowed
  | JsxFlagNotProvided | MissingJsxIntrinsicElementsDeclaration | JsxModuleNotSet
  | Unsupported (code : Nat)
  deriving DecidableEq, Repr

/-- Rust `u16::from_str` (used via `num_str.parse::<u16>()`): an optional
leading `+`, then at least one ASCII digit, with the result in `u16` range
(overflow is a parse error). -/
def parseU16 (s : String) : Option Nat :=
  let s := if s.startsWith "+" then s.drop 1 else s
  if s.length > 0 && s.toList.all Char.isDigit then
    let n := s.toList.foldl (fun acc c => acc * 10 + (c.toNat - 48)) 0
    if n ≤ 65535 then some n else none
  else none

namespace ErrorCode

/-- `ErrorCode::from_str` (`src/error/codes.rs:72-131`). -/
def fromStr (code : String) : ErrorCode :=
  match code with
  | "TS2322" => .TypeMismatch
  | "TS2345" => .InlineTypeMismatch
  | "TS2554" => .MissingParameters
  | "TS7006" | "TS7044" => .NoImplicitAny
  | "TS2741" => .PropertyMissingInType
  | "TS2367" => .UnintentionalComparison
  | "TS18046" => .ObjectIsUnknown
  | "TS2339" => .PropertyDoesNotExist
  | "TS2532" | "TS18048" => .ObjectIsPossiblyUndefined
  | "TS2531" | "TS18047" => .ObjectIsPossiblyNull
  | "TS2352" => .DirectCastPotentiallyMistaken
  | "TS2556" => .SpreadArgumentMustBeTupleType
  | "TS2362" => .LeftSideArithmeticMustBeEnumberable
  | "TS2363" => .RightSideArithmeticMustBeEnumberable
  | "TS2394" => .IncompatibleOverload
  | "TS2451" => .InvalidShadowInScope
  | "TS2307" => .NonExistentModuleImport
  | "TS2540" => .ReadonlyPropertyAssignment
  | "TS2420" => .IncorrectInterfaceImplementation
  | "TS2416" => .PropertyInClassNotAssignableToBase
  | "TS2304" => .CannotFindIdentifier
  | "TS2355" => .MissingReturnValue
  | "TS2349" => .UncallableExpression
  | "TS2551" => .TypoPropertyOnType
  | "TS2538" => .InvalidIndexType
  | "TS1268" => .InvalidIndexTypeSignature
  | "TS1002" => .UnterminatedStringLiteral
  | "TS1003" => .IdentifierExpected
  | "TS1009" => .DisallowedTrailingComma
  | "TS1014" => .SpreadParameterMustBeLast
  | "TS1109" => .ExpressionExpected
  | "TS1117" => .UniqueObjectMemberNames
  | "TS1155" => .UninitializedConst
  | "TS1163" => .YieldNotInGenerator
  | "TS17004" => .JsxFlagNotProvided
  | "TS6133" => .DeclaredButNeverUsed
  | "TS2305" | "TS2724" => .NoExportedMember
  | "TS6192" => .ImportedButNeverUsed
  | "TS1259" => .InvalidDefaultImport
  | "TS95050" => .UnreachableCode
  | "TS8016" | "TS8010" => .TypeAssertionInJsNotAllowed
  | "TS7061" => .MappedTypeMustBeStatic
  | "TS7053" => .ElementImplicitAnyInvalidIndexTypeForObject
  | "TS7026" => .MissingJsxIntrinsicElementsDeclaration
  | "TS6244" => .ConstEnumsDisallowed
  | "TS6142" => .JsxModuleNotSet
  | "TS1434" => .UnexpectedKeywordOrIdentifier
  | other =>
    if other.startsWith "TS" then
      match parseU16 (other.drop 2) with
      | some num => .Unsupported num
      | none => .Unsupported 0
    else .Unsupported 0

/-- `ErrorCode::as_str` (`src/error/codes.rs:134-190`). -/
def asStr : ErrorCode → String
  | .TypeMismatch => "TS2322"
  | .InlineTypeMismatch => "TS2345"
  | .MissingParameters => "TS2554"
  | .NoImplicitAny => "TS7006"
  | .PropertyMissingInType => "TS2741"
  | .UnintentionalComparison => "TS2367"
  | .PropertyDoesNotExist => "TS2339"
  | .ObjectIsPossiblyUndefined => "TS2532"
  | .ObjectIsPossiblyNull => "TS2531"
  | .ObjectIsUnknown => "TS18046"
  | .DirectCastPotentiallyMistaken => "TS2352"
  | .SpreadArgumentMustBeTupleType => "TS2556"
  | .RightSideArithmeticMustBeEnumberable => "TS2363"
  | .LeftSideArithmeticMustBeEnumberable => "TS2362"
  | .IncompatibleOverload => "TS2394"
  | .InvalidShadowInScope => "TS2451"
  | .NonExistentModuleImport => "TS2307"
  | .ReadonlyPropertyAssignment => "TS2540"
  | .IncorrectInterfaceImplementation => "TS2420"
  | .PropertyInClassNotAssignableToBase => "TS2416"
  | .CannotFindIdentifier => "TS2304"
  | .MissingReturnValue => "TS2355"
  | .UncallableExpression => "TS2349"
  | .InvalidIndexType => "TS2538"
  | .InvalidIndexTypeSignature => "TS1268"
  | .TypoPropertyOnType => "TS2551"
  | .UnterminatedStringLiteral => "TS1002"
  | .IdentifierExpected => "TS1003"
  | .DisallowedTrailingComma => "TS1009"
  | .SpreadParameterMustBeLast => "TS1014"
  | .ExpressionExpected => "TS1109"
  | .UniqueObjectMemberNames => "TS1117"
  | .UninitializedConst => "TS1155"
  | .YieldNotInGenerator => "TS1163"
  | .JsxFlagNotProvided => "TS17004"
  | .DeclaredButNeverUsed => "TS6133"
  | .ImportedButNeverUsed => "TS6192"
  | .NoExportedMember => "TS2305"
  | .InvalidDefaultImport => "TS1259"
  | .UnreachableCode => "TS95050"
  | .TypeAssertionInJsNotAllowed => "TS8016"
  | .MappedTypeMustBeStatic => "TS7061"
  | .ElementImplicitAnyInvalidIndexTypeForObject => "TS7053"
  | .MissingJsxIntrinsicElementsDeclaration => "TS7026"
  | .ConstEnumsDisallowed => "TS6244"
  | .JsxModuleNotSet => "TS6142"
  | .UnexpectedKeywordOrIdentifier => "TS1434"
  | .Unsupported _ => "TS<unsupported>"

/-- Whether a variant is the catch-all `Unsupported(_)`. -/
def isUnsupported : ErrorCode → Bool
  | .Unsupported _ => true
  | _ => false

end ErrorCode

/-- `TsError` (`src/error/core.rs:3-9` and, with its own code enumeration,
`src/parser.rs:2-8`): the two structs share every field shape, so the
embedding is generic in the code type. -/
structure TsErrorG (κ : Type) where
  file : String
  line : Nat
  column : Nat
  code : κ
  message : List Char

/-- The diagnostic record consumed by the suggestion dispatcher. -/
abbrev TsError := TsErrorG ErrorCode

/-! ## Token utilities (`src/token_utils.rs`) -/

/-- `find_token_at_position(tokens, line, column)`
(`src/token_utils.rs:5-15`): first token on the line whose half-open
character-column range contains the query column. -/
def find_token_at_position (tokens : List Token) (line column : Nat) : Option Token :=
  tokens.find? fun token =>
    token.line = line && column ≥ token.column && column < token.column + token.raw.length

/-- `extract_identifier_at_error(err, tokens)` (`src/token_utils.rs:48-52`):
the 1-indexed diagnostic column is converted with `saturating_sub(1)`
before the token lookup. -/
def extract_identifier_at_error {κ : Type} (err : TsErrorG κ) (tokens : List Token) :
    Option (List Char) :=
  (find_token_at_position tokens err.line (err.column - 1)).map Token.raw

/-- `extract_identifier_or_default` (`src/token_utils.rs:55-57`). -/
def extract_identifier_or_default {κ : Type} (err : TsErrorG κ) (tokens : List Token)
    (default : List Char) : List Char :=
  (extract_identifier_at_error err tokens).getD default

/-- The reverse scan of `find_function_name_before`
(`src/token_utils.rs:18-45`): over `tokens.rev()`, skip tokens at or after
the position, remember an open paren, then return the next
identifier-kind token. -/
def findFnNameRev (line column : Nat) : List Token → Bool → Option Token
  | [], _ => none
  | token :: rest, foundParen =>
    if token.line > line ∨ (token.line = line ∧ token.column ≥ column) then
      findFnNameRev line column rest foundParen
    else if token.raw = ['('] then
      findFnNameRev line column rest true
    else if foundParen ∧ token.kind = .Identifier then
      some token
    else
      findFnNameRev line column rest foundParen

/-- `find_function_name_before(tokens, line, column)`. -/
def find_function_name_before (tokens : List Token) (line column : Nat) : Option Token :=
  findFnNameRev line column tokens.reverse false

/-- `extract_function_name` (`src/token_utils.rs:60-64`). -/
def extract_function_name {κ : Type} (err : TsErrorG κ) (tokens : List Token)
    (default : List Char) : List Char :=
  ((find_function_name_before tokens err.line (err.column - 1)).map Token.raw).getD default

/-- The forward scan of `find_identifier_after_keyword`
(`src/token_utils.rs:68-94`): on the given line, after a token whose text
equals the keyword, return the next token whose text is nonempty and
neither `;` nor `:`; leaving the line after the keyword stops the scan. -/
def findIdentAfterKwAux (line : Nat) (keyword : List Char) :
    List Token → Bool → Option (List Char × Nat × Nat)
  | [], _ => none
  | token :: rest, foundKeyword =>
    if token.line ≠ line then
      if foundKeyword then none
      else findIdentAfterKwAux line keyword rest foundKeyword
    else if token.raw = keyword then
      findIdentAfterKwAux line keyword rest true
    else if foundKeyword ∧ ¬token.raw.isEmpty ∧ token.raw ≠ [';'] ∧ token.raw ≠ [':'] then
      some (token.raw, token.start, token.endPos)
    else
      findIdentAfterKwAux line keyword rest foundKeyword

/-- `find_identifier_after_keyword(tokens, line, keyword)`, returning the
identifier text with its byte span. -/
def find_identifier_after_keyword (tokens : List Token) (line : Nat)
    (keyword : List Char) : Option (List Char × Nat × Nat) :=
  findIdentAfterKwAux line keyword tokens false

/-! ## tsc output-line parser (`src/parser.rs`) -/

/-- `CommonErrors` (`src/parser.rs:10-47`): the parser-side code
enumeration (`Unsupported` carries the raw code string). -/
inductive CommonErrors where
  | TypeMismatch | InlineTypeMismatch | MissingParameters | NoImplicitAny
  | PropertyMissingInType | UnintentionalComparison | PropertyDoesNotExist
  | ObjectIsPossiblyUndefined | ObjectIsPossiblyNull | ObjectIsUnknown
  | DirectCastPotentiallyMistaken | SpreadArgumentMustBeTupleType
  | RightSideArithmeticMustBeEnumberable | LeftSideArithmeticMustBeEnumberable
  | IncompatibleOverload | InvalidShadowInScope | NonExistentModuleImport
  | ReadonlyPropertyAssignment | IncorrectInterfaceImplementation
  | PropertyInClassNotAssignableToBase | CannotFindIdentifier
  | MissingReturnValue | UncallableExpression | InvalidIndexType
  | InvalidIndexTypeSignature | TypoPropertyOnType | UnterminatedStringLiteral
  | IdentifierExpected | DisallowedTrailingComma | SpreadParameterMustBeLast
  | ExpressionExpected | UniqueObjectMemberNames | UninitializedConst
  | YieldNotInGenerator
  | Unsupported (code : String)
  deriving DecidableEq, Repr

/-- `CommonErrors::from_code` (`src/parser.rs:93-132`). -/
def CommonErrors.fromCode (code : String) : CommonErrors :=
  match code with
  | "TS2322" => .TypeMismatch
  | "TS2345" => .InlineTypeMismatch
  | "TS2554" => .MissingParameters
  | "TS7006" | "TS7044" => .NoImplicitAny
  | "TS2741" => .PropertyMissingInType
  | "TS2367" => .UnintentionalComparison
  | "TS18046" => .ObjectIsUnknown
  | "TS2339" => .PropertyDoesNotExist
  | "TS2532" | "TS18048" => .ObjectIsPossiblyUndefined
  | "TS2531" | "TS18047" => .ObjectIsPossiblyNull
  | "TS2352" => .DirectCastPotentiallyMistaken
  | "TS2556" => .SpreadArgumentMustBeTupleType
  | "TS2362" => .LeftSideArithmeticMustBeEnumberable
  | "TS2363" => .RightSideArithmeticMustBeEnumberable
  | "TS2394" => .IncompatibleOverload
  | "TS2451" => .InvalidShadowInScope
  | "TS2307" => .NonExistentModuleImport
  | "TS2540" => .ReadonlyPropertyAssignment
  | "TS2420" => .IncorrectInterfaceImplementation
  | "TS2416" => .PropertyInClassNotAssignableToBase
  | "TS2304" => .CannotFindIdentifier
  | "TS2355" => .MissingReturnValue
  | "TS2349" => .UncallableExpression
  | "TS2551" => .TypoPropertyOnType
  | "TS2538" => .InvalidIndexType
  | "TS1268" => .InvalidIndexTypeSignature
  | "TS1002" => .UnterminatedStringLiteral
  | "TS1003" => .IdentifierExpected
  | "TS1009" => .DisallowedTrailingComma
  | "TS1014" => .SpreadParameterMustBeLast
  | "TS1109" => .ExpressionExpected
  | "TS1117" => .UniqueObjectMemberNames
  | "TS1155" => .UninitializedConst
  | "TS1163" => .YieldNotInGenerator
  | other => .Unsupported other

/-- Rust `str::split_once` with a `char` pattern. -/
def splitOnceCh (sep : Char) (l : List Char) : Option (List Char × List Char) :=
  if sep ∈ l then some (l.takeWhile (· ≠ sep), (l.dropWhile (· ≠ sep)).tail)
  else none

/-- Rust `str::split_once` with a `&str` pattern. -/
def splitOnceSub (sep : List Char) (l : List Char) : Option (List Char × List Char) :=
  match findSubIdx sep l with
  | none => none
  | some i => some (l.take i, l.drop (i + sep.length))

/-- Rust `usize::from_str_radix(s, 10)` (64-bit target): an optional
leading `+`, at least one ASCII digit, result within `usize` range. -/
def parseUsize (l : List Char) : Option Nat :=
  let l := match l with | '+' :: rest => rest | _ => l
  if l ≠ [] ∧ l.all Char.isDigit then
    let n := l.foldl (fun acc c => acc * 10 + (c.toNat - 48)) 0
    if n ≤ 18446744073709551615 then some n else none
  else none

/-- `parse(line)` (`src/parser.rs:135-148`). -/
def parse (line : List Char) : Option (TsErrorG CommonErrors) := do
  let (file, rest) ← splitOnceCh '(' line
  let (coords, rest) ← splitOnceSub ("): error ".toList) rest
  let (lineS, colS) ← splitOnceCh ',' coords
  let (code, msg) ← splitOnceSub (": ".toList) rest
  let lineNum ← parseUsize lineS
  let colNum ← parseUsize colS
  pure { file := file.asString, line := lineNum, column := colNum,
         code := CommonErrors.fromCode code.asString, message := msg }

/-! ## Suggestion dispatcher (`src/diagnostics/suggestions.rs`)

ANSI styling from the `colored` crate (`.red()`, `.bold()`, …) is modelled
as the identity on strings: styling only wraps text in escape sequences and
every property proved about suggestion text is a substring property. -/

/-- `Suggestion` (`src/suggestion/mod.rs:2-6`); the span is a half-open
byte range. -/
structure Suggestion where
  suggestions : List String
  help : Option String
  span : Option (Nat × Nat)
  deriving DecidableEq, Repr

/-- Rust `str::split` with a `&str` pattern, fuel-indexed (every step
consumes at least `sep.length ≥ 1` characters, so `l.length + 1` units of
fuel always suffice for the nonempty separators used here). -/
def splitSubFuel (sep : List Char) : Nat → List Char → List (List Char)
  | 0, l => [l]
  | fuel + 1, l =>
    match findSubIdx sep l with
    | none => [l]
    | some i => l.take i :: splitSubFuel sep fuel (l.drop (i + sep.length))

/-- Rust `str::split` with a `&str` pattern. -/
def splitSub (sep l : List Char) : List (List Char) :=
  splitSubFuel sep (l.length + 1) l

/-- Rust `u32::from_str` (via `.parse::<u32>()`): optional leading `+`,
at least one ASCII digit, result within `u32` range. -/
def parseU32 (l : List Char) : Option Nat :=
  let l := match l with | '+' :: rest => rest | _ => l
  if l ≠ [] ∧ l.all Char.isDigit then
    let n := l.foldl (fun acc c => acc * 10 + (c.toNat - 48)) 0
    if n ≤ 4294967295 then some n else none
  else none

/-- `suggest_unexpected_kw_or_identifier` (`src/diagnostics/suggestions.rs:91-105`).
Note: this is the one handler that passes the raw 1-indexed `err.column`
to `find_token_at_position` without the `- 1` adjustment. -/
def suggest_unexpected_kw_or_identifier (err : TsError) (tokens : List Token) :
    Option Suggestion := do
  let keyword ← find_token_at_position tokens err.line err.column
  let kw := keyword.raw.asString
  pure { suggestions := [s!"[FATAL] `{kw}` is not expected in this context."],
         help := some "Avoid using unknown, undeclared or invalid keywords or identifiers.",
         span := none }

/-- `suggest_jsx_not_set` (`src/diagnostics/suggestions.rs:108-121`). -/
def suggest_jsx_not_set (err : TsError) : Option Suggestion := do
  let moduleName ← extract_first_quoted err.message
  let resolvedName ← extract_second_quoted err.message
  let m := moduleName.asString
  let r := resolvedName.asString
  pure { suggestions :=
          [s!"Module `{m}` is resolved to `{r}` but jsx compiler flag is not set."],
         help := some "Enable `--jsx` compiler flag or add jsx to tsconfig.json",
         span := none }

/-- `suggest_const_enums_disallowed` (`src/diagnostics/suggestions.rs:124-134`). -/
def suggest_const_enums_disallowed : Option Suggestion :=
  some { suggestions :=
          ["Disable `isolatedModules` as a compiler setting to allow const enums."],
         help := some "Const enums are not valid when `isolatedModules` is enabled.",
         span := none }

/-- `suggest_missing_jsx_intrinsic_elements_declaration`
(`src/diagnostics/suggestions.rs:138-149`). -/
def suggest_missing_jsx_intrinsic_elements_declaration : Option Suggestion :=
  some { suggestions :=
          ["JSX intrinsic elements declaration is missing in global scope."],
         help := some "Either declare a global module with a JSX namespace or configure React or other JSX consumers correctly",
         span := none }

/-- `suggest_element_implicit_any_invalid_index_type_for_object`
(`src/diagnostics/suggestions.rs:153-178`). -/
def suggest_element_implicit_any_invalid_index_type_for_object (err : TsError) :
    Option Suggestion := do
  let implicitType ← extract_quoted_value err.message 1
  let indexType ← extract_quoted_value err.message 3
  let objectToIndex ← extract_quoted_value err.message 6
  let imp := implicitType.asString
  let idx := indexType.asString
  let obj := objectToIndex.asString
  pure { suggestions :=
          [s!"`{idx}` can not be used as an index to access `{obj}` - therefore element is implicitly `{imp}`."],
         help := some s!"Consider declaring the index with `keyof typeof {obj}` or loosen the type of `{obj}` to allow indexing with `{idx}`.",
         span := none }

/-- `suggest_mapped_type_must_be_static` (`src/diagnostics/suggestions.rs:181-192`). -/
def suggest_mapped_type_must_be_static : Option Suggestion :=
  some { suggestions := ["Consider removing the properties and/or methods"],
         help := some "Split multiple mapped property declarations into individual types and combine them using a type intersection.",
         span := none }

/-- `suggest_type_assertion_in_js_not_allowed`
(`src/diagnostics/suggestions.rs:195-204`). -/
def suggest_type_assertion_in_js_not_allowed : Option Suggestion :=
  some { suggestions := ["Type assertions are not allowed in JavaScript files."],
         help := some "Consider converting the file to TypeScript or removing the type assertion.",
         span := none }

/-- `suggest_unreachable` (`src/diagnostics/suggestions.rs:207-213`). -/
def suggest_unreachable : Option Suggestion :=
  some { suggestions := ["Code here is unreachable"],
         help := some "Consider removing unreachable code or the statement that causes this to be unreachable",
         span := none }

/-- `suggest_type_mismatch` (`src/diagnostics/suggestions.rs:216-236`). -/
def suggest_type_mismatch (err : TsError) (tokens : List Token) : Option Suggestion :=
  match parse_ts2322_error err.message with
  | some (fro, toTy) =>
    let varName := (extract_identifier_or_default err tokens []).asString
    let froS := fro.asString
    let toS := toTy.asString
    some { suggestions := [s!"Try converting `{varName}` from `{froS}` to `{toS}`."],
           help := some "Ensure that the types are compatible or perform an explicit conversion.",
           span := none }
  | none => none

/-- The numeric sub-protocol of `suggest_inline_type_mismatch`
(`src/diagnostics/suggestions.rs:243-258`): segment after the first
`"Expected "`, leading integer before `" or more"`, integer after
`"but got "` up to the next `.`; unparseable halves default to `0`. -/
def inlineExpectedGot (msg : List Char) : Nat × Nat :=
  match (splitSub ("Expected ".toList) msg).get? 1 with
  | some expectedStr =>
    let expectedNum := (parseU32 (trimL (((splitSub (" or more".toList) expectedStr).headD [])))).getD 0
    let gotNum :=
      match (splitSub ("but got ".toList) expectedStr).get? 1 with
      | some s => (parseU32 (trimL ((splitCh '.' s).headD []))).getD 0
      | none => 0
    (expectedNum, gotNum)
  | none => (0, 0)

/-- `suggest_inline_type_mismatch` (`src/diagnostics/suggestions.rs:238-326`),
parameterised by the `HashMap` iteration order used inside
`parse_ts2345_error` (see `ts2345Mismatches`). -/
def suggest_inline_type_mismatch (iterOrder : List (List Char)) (err : TsError) :
    Option Suggestion :=
  if containsSub ("Target signature provides too few arguments".toList) err.message then
    let (expected, got) := inlineExpectedGot err.message
    let suggestion :=
      if expected > 0 ∧ got > 0 then
        s!"The callback function has {expected} parameters, but the signature only accepts {got}."
      else
        "The callback function has too many parameters for the expected signature."
    some { suggestions := [suggestion],
           help := some "Remove the extra parameters from the callback function to match the expected signature.",
           span := none }
  else if containsSub ("Target signature provides too many arguments".toList) err.message then
    some { suggestions :=
            ["The callback function has too few parameters for the expected signature."],
           help := some "Add the missing parameters to the callback function to match the expected signature.",
           span := none }
  else
    let fromMismatches :=
      match parse_ts2345_error_withOrder iterOrder err.message with
      | some mismatches =>
        if mismatches.isEmpty then none
        else some (mismatches.map fun (m : List Char × List Char × List Char) =>
          let p := m.1.asString
          let provided := m.2.1.asString
          let expected := m.2.2.asString
          s!"Property `{p}` is provided as `{provided}` but expects `{expected}`.")
      | none => none
    some { suggestions := fromMismatches.getD
            ["Argument type does not match the expected parameter type."],
           help := some "Check the function arguments to ensure they match the expected parameter types.",
           span := none }

/-- The numeric sub-protocol of `suggest_missing_parameters`
(`src/diagnostics/suggestions.rs:342-355`): like `inlineExpectedGot` but
the expected count stops before `" argument"` and unparseable halves stay
`None`. -/
def missingParamsExpectedGot (msg : List Char) : Option Nat × Option Nat :=
  match (splitSub ("Expected ".toList) msg).get? 1 with
  | some expectedStr =>
    (parseU32 (trimL ((splitSub (" argument".toList) expectedStr).headD [])),
     match (splitSub ("but got ".toList) expectedStr).get? 1 with
     | some s => parseU32 (trimL ((splitCh '.' s).headD []))
     | none => none)
  | none => (none, none)

/-- `suggest_missing_parameters` (`src/diagnostics/suggestions.rs:328-407`). -/
def suggest_missing_parameters (err : TsError) (tokens : List Token) : Option Suggestion :=
  let fnName :=
    match extract_identifier_at_error err tokens with
    | some name =>
      if ¬name.isEmpty then name
      else
        extract_function_name err tokens
          ((extract_first_quoted err.message).getD ("function".toList))
    | none =>
      extract_function_name err tokens
        ((extract_first_quoted err.message).getD ("function".toList))
  let fn := fnName.asString
  let (expected, got) := missingParamsExpectedGot err.message
  let pair :=
    match expected, got with
    | some exp, some g =>
      if g < exp then
        (s!"Function `{fn}` expects {exp} arguments but only received {g}.",
         if exp - g = 1 then "Add the missing argument to match the expected signature."
         else "Add the missing arguments to match the expected signature.")
      else if g > exp then
        (s!"Function `{fn}` expects {exp} arguments but received {g}.",
         if g - exp = 1 then "Remove the extra argument to match the expected signature."
         else "Remove the extra arguments to match the expected signature.")
      else
        (s!"Check if all required arguments are provided when invoking {fn}",
         s!"Ensure the correct number of arguments are passed to `{fn}`.")
    | _, _ =>
      (s!"Check if all required arguments are provided when invoking {fn}",
       s!"Ensure the correct number of arguments are passed to `{fn}`.")
  some { suggestions := [pair.1], help := some pair.2, span := none }

/-- `suggest_no_implicit_any` (`src/diagnostics/suggestions.rs:409-419`). -/
def suggest_no_implicit_any (err : TsError) : Option Suggestion := do
  let paramName ← extract_first_quoted err.message
  let p := paramName.asString
  pure { suggestions := [s!"{p} is implicitly `any`."],
         help := some "Consider adding type annotations to avoid implicit 'any' types.",
         span := none }

/-- `suggest_property_missing_in_type` (`src/diagnostics/suggestions.rs:421-451`). -/
def suggest_property_missing_in_type (err : TsError) (tokens : List Token) :
    Option Suggestion :=
  match parse_property_missing_error err.message with
  | some typeName =>
    let varName := (extract_identifier_or_default err tokens []).asString
    let t := typeName.asString
    some { suggestions := [s!"Verify that `{varName}` matches the annotated type `{t}`."],
           help := some s!"Ensure that `{varName}` has all required properties defined in the type `{t}`.",
           span := none }
  | none =>
    some { suggestions :=
            ["Verify that the object structure includes all required members of the specified type."],
           help := some "Ensure the object has all required properties defined in the type.",
           span := none }

/-- `suggest_unintentional_comparison` (`src/diagnostics/suggestions.rs:453-461`). -/
def suggest_unintentional_comparison : Option Suggestion :=
  some { suggestions :=
          ["Impossible to compare as left side value is narrowed to a single value."],
         help := some "Review the comparison logic to ensure it makes sense.",
         span := none }

/-- `suggest_property_does_not_exist` (`src/diagnostics/suggestions.rs:463-479`). -/
def suggest_property_does_not_exist (err : TsError) : Option Suggestion := do
  let propertyName ← extract_first_quoted err.message
  let typeName ← extract_second_quoted err.message
  let p := propertyName.asString
  let t := typeName.asString
  pure { suggestions := [s!"Property `{p}` is not found on type `{t}`."],
         help := some "Ensure the property exists on the type or adjust your code to avoid accessing it.",
         span := none }

/-- `suggest_possibly_undefined` (`src/diagnostics/suggestions.rs:481-495`). -/
def suggest_possibly_undefined (err : TsError) : Option Suggestion := do
  let v ← extract_first_quoted err.message
  let vs := v.asString
  pure { suggestions := [s!"{vs} may be `undefined` here."],
         help := some s!"Consider optional chaining or an explicit check before attempting to access `{vs}`",
         span := none }

/-- `suggest_direct_cast_mistaken` (`src/diagnostics/suggestions.rs:497-514`). -/
def suggest_direct_cast_mistaken (err : TsError) : Option Suggestion := do
  let castFromType ← extract_first_quoted err.message
  let castToType ← extract_second_quoted err.message
  let f := castFromType.asString
  let t := castToType.asString
  pure { suggestions :=
          [s!"Directly casting from `{f}` to `{t}` can be unsafe or mistaken, as both types do not overlap sufficiently."],
         help := some s!"Consider using type guards or intermediate conversions to ensure type safety when casting from `{f}` to `{t}`, only intermediately cast `as unknown` if this is desired.",
         span := none }

/-- `suggest_spread_tuple` (`src/diagnostics/suggestions.rs:516-527`). -/
def suggest_spread_tuple : Option Suggestion :=
  some { suggestions :=
          ["The argument being spread must be a tuple type or a `spreadable` type."],
         help := some "Ensure that the argument being spread is a tuple type compatible with the function's parameter type.",
         span := none }

/-- `suggest_right_arithmetic` (`src/diagnostics/suggestions.rs:529-541`). -/
def suggest_right_arithmetic : Option Suggestion :=
  some { suggestions :=
          ["The right-hand side of any arithmetic operation must be a number or enumerable."],
         help := some "Ensure that the value on the right side of the arithmetic operator is of type `number`, `bigint` or an enum member.",
         span := none }

/-- `suggest_left_arithmetic` (`src/diagnostics/suggestions.rs:543-555`). -/
def suggest_left_arithmetic : Option Suggestion :=
  some { suggestions :=
          ["The left-hand side of any arithmetic operation must be a number or enumerable."],
         help := some "Ensure that the value on the left side of the arithmetic operator is of type `number`, `bigint` or an enum member.",
         span := none }

/-- `suggest_incompatible_overload` (`src/diagnostics/suggestions.rs:557-568`). -/
def suggest_incompatible_overload : Option Suggestion :=
  some { suggestions :=
          ["The provided arguments do not match any overload of the function."],
         help := some "Check the function overloads and ensure that this signature adheres to the parent signature.",
         span := none }

/-- `suggest_invalid_shadow` (`src/diagnostics/suggestions.rs:570-584`). -/
def suggest_invalid_shadow (err : TsError) : Option Suggestion := do
  let varName ← extract_first_quoted err.message
  let v := varName.asString
  pure { suggestions :=
          [s!"Declared variable `{v}` can not shadow another variable in this scope."],
         help := some s!"Consider renaming the invalid shadowed variable `{v}`.",
         span := none }

/-- `suggest_nonexistent_module` (`src/diagnostics/suggestions.rs:586-600`). -/
def suggest_nonexistent_module (err : TsError) : Option Suggestion := do
  let moduleName ← extract_first_quoted err.message
  let m := moduleName.asString
  pure { suggestions := [s!"Module `{m}` does not exist."],
         help := some s!"Ensure that the module `{m}` is installed and the import path is correct.",
         span := none }

/-- `suggest_readonly_property` (`src/diagnostics/suggestions.rs:602-616`). -/
def suggest_readonly_property (err : TsError) : Option Suggestion := do
  let propertyName ← extract_first_quoted err.message
  let p := propertyName.asString
  pure { suggestions := [s!"Property `{p}` is readonly and thus can not be re-assigned."],
         help := some s!"Consider removing the assignment to the read-only property `{p}` or changing its declaration to be mutable.",
         span := none }

/-- `suggest_incorrect_interface` (`src/diagnostics/suggestions.rs:618-637`). -/
def suggest_incorrect_interface (err : TsError) : Option Suggestion := do
  let className ← extract_first_quoted err.message
  let interfaceName ← extract_second_quoted err.message
  let missingProperty ← extract_third_quoted err.message
  let c := className.asString
  let i := interfaceName.asString
  let m := missingProperty.asString
  pure { suggestions :=
          [s!"Class `{c}` does not implement `{m}` from interface `{i}`."],
         help := some s!"Ensure that `{c}` provides all required properties and methods defined in the interface `{i}`.",
         span := none }

/-- `suggest_property_not_assignable` (`src/diagnostics/suggestions.rs:639-669`). -/
def suggest_property_not_assignable (err : TsError) : Option Suggestion := do
  let property ← extract_first_quoted err.message
  let implType ← extract_second_quoted err.message
  let baseType ← extract_third_quoted err.message
  let propertyImplType ← extract_quoted_value err.message 7
  let propertyBaseType ← extract_quoted_value err.message 9
  let p := property.asString
  let i := implType.asString
  let b := baseType.asString
  let pi := propertyImplType.asString
  let pb := propertyBaseType.asString
  pure { suggestions :=
          [s!"Property `{p}` in class `{i}` is not assignable to the same property in base class `{b}`.",
           s!"Property `{p}` is implemented as type `{pi}` but defined as `{pb}`."],
         help := some s!"Ensure that the type of property `{p}` in class `{i}` is compatible with the type defined in base class `{b}`.",
         span := none }

/-- `suggest_cannot_find_identifier` (`src/diagnostics/suggestions.rs:671-685`). -/
def suggest_cannot_find_identifier (err : TsError) : Option Suggestion := do
  let identifier ← extract_first_quoted err.message
  let i := identifier.asString
  pure { suggestions := [s!"Identifier `{i}` can not be found in the current scope."],
         help := some s!"Ensure that `{i}` is declared and accessible in the current scope or remove this reference.",
         span := none }

/-- `suggest_missing_return` (`src/diagnostics/suggestions.rs:687-696`). -/
def suggest_missing_return : Option Suggestion :=
  some { suggestions := ["A return value is missing where one is expected."],
         help := some "A function that declares a return type must return a value of that type on all branches.",
         span := none }

/-- `suggest_uncallable_expression` (`src/diagnostics/suggestions.rs:698-712`). -/
def suggest_uncallable_expression (err : TsError) : Option Suggestion := do
  let expr ← extract_first_quoted err.message
  let e := expr.asString
  pure { suggestions := [s!"Expression `{e}` not can not be invoked or called."],
         help := some s!"Ensure that `{e}` is a function or has a callable signature before invoking it.",
         span := none }

/-- `suggest_invalid_index_type` (`src/diagnostics/suggestions.rs:714-725`). -/
def suggest_invalid_index_type (err : TsError) : Option Suggestion := do
  let indexType ← extract_first_quoted err.message
  let i := indexType.asString
  pure { suggestions := [s!"`{i}` can not be used as an index accessor."],
         help := some "Ensure that the index type is `number`, `string`, `symbol` or a compatible index type.",
         span := none }

/-- `suggest_invalid_index_signature` (`src/diagnostics/suggestions.rs:727-741`):
this handler *does* adjust the diagnostic column with `saturating_sub(1)`
before the token lookup, and highlights that token's span. -/
def suggest_invalid_index_signature (err : TsError) (tokens : List Token) :
    Option Suggestion := do
  let token ← find_token_at_position tokens err.line (err.column - 1)
  let spanText := token.raw.asString
  pure { suggestions := [s!"`{spanText}` is not a valid index type."],
         help := some "Ensure that the index type is `number`, `string`, `symbol`, `template literal` or a compatible index type.",
         span := some (token.start, token.endPos) }

/-- `suggest_typo_property` (`src/diagnostics/suggestions.rs:743-762`). -/
def suggest_typo_property (err : TsError) : Option Suggestion := do
  let propertyName ← extract_first_quoted err.message
  let typeName ← extract_second_quoted err.message
  let suggestedPropertyName ← extract_third_quoted err.message
  let p := propertyName.asString
  let t := typeName.asString
  let s := suggestedPropertyName.asString
  pure { suggestions :=
          [s!"Property `{p}` does not exist on type `{t}`. Try `{s}` instead"],
         help := some s!"Check for typos in the property name `{p}` or ensure that it is defined on type `{t}`.",
         span := none }

/-- `suggest_possibly_null` (`src/diagnostics/suggestions.rs:764-778`). -/
def suggest_possibly_null (err : TsError) : Option Suggestion := do
  let v ← extract_first_quoted err.message
  let vs := v.asString
  pure { suggestions := [s!"{vs} may be `null` here."],
         help := some s!"Consider optional chaining or an explicit null check before attempting to access `{vs}`",
         span := none }

/-- `suggest_object_unknown` (`src/diagnostics/suggestions.rs:780-794`). -/
def suggest_object_unknown (err : TsError) : Option Suggestion := do
  let v ← extract_first_quoted err.message
  let vs := v.asString
  pure { suggestions := [s!"{vs} is of type `unknown`."],
         help := some s!"Use type guards, type assertions, or narrow the type of `{vs}` before accessing its properties.",
         span := none }

/-- `suggest_unterminated_string` (`src/diagnostics/suggestions.rs:796-808`). -/
def suggest_unterminated_string (err : TsError) : Option Suggestion := do
  let literal ← extract_first_quoted err.message
  let l := literal.asString
  pure { suggestions := [s!"String {l} is missing \" to close the string."],
         help := some "Ensure that all string literals are properly closed with matching quotes.",
         span := none }

/-- `suggest_identifier_expected` (`src/diagnostics/suggestions.rs:810-819`). -/
def suggest_identifier_expected : Option Suggestion :=
  some { suggestions := ["An identifier was expected at this location in the code."],
         help := some "Check the syntax near this location to ensure that an identifier is provided where required.",
         span := none }

/-- `suggest_disallowed_comma` (`src/diagnostics/suggestions.rs:821-827`). -/
def suggest_disallowed_comma : Option Suggestion :=
  some { suggestions := ["Trailing commas are not allowed in this context."],
         help := some "Remove the trailing comma to resolve the syntax error.",
         span := none }

/-- `suggest_spread_parameter_last` (`src/diagnostics/suggestions.rs:829-838`). -/
def suggest_spread_parameter_last : Option Suggestion :=
  some { suggestions :=
          ["A spread parameter must be the last parameter in a function signature."],
         help := some "Move the `...` parameter to the end of the list of parameters.",
         span := none }

/-- `suggest_expression_expected` (`src/diagnostics/suggestions.rs:841-847`). -/
def suggest_expression_expected : Option Suggestion :=
  some { suggestions := ["An expression was found but no value is assigned to it."],
         help := some "Assign a value to the expression.",
         span := none }

/-- `suggest_unique_members` (`src/diagnostics/suggestions.rs:849-855`). -/
def suggest_unique_members : Option Suggestion :=
  some { suggestions := ["Consider removing or renaming one of the object members"],
         help := some "An object may contain a member name once.",
         span := none }

/-- `suggest_uninitialized_const` (`src/diagnostics/suggestions.rs:857-868`). -/
def suggest_uninitialized_const (err : TsError) (tokens : List Token) :
    Option Suggestion := do
  let (name, spanStart, spanEnd) ←
    find_identifier_after_keyword tokens err.line ("const".toList)
  let n := name.asString
  pure { suggestions := [s!"`{n}` must be initialized"],
         help := some s!"Initialize `{n}` with a value",
         span := some (spanStart, spanEnd) }

/-- `suggest_yield_not_in_generator` (`src/diagnostics/suggestions.rs:870-883`). -/
def suggest_yield_not_in_generator : Option Suggestion :=
  some { suggestions := ["`yield` can only be used in generator functions"],
         help := some "use `yield` inside of `function*`",
         span := none }

/-- `suggest_jsx_flag` (`src/diagnostics/suggestions.rs:885-893`). -/
def suggest_jsx_flag : Option Suggestion :=
  some { suggestions := ["JSX can not be used."],
         help := some "Enable the JSX flag in your TypeScript configuration to use JSX syntax.",
         span := none }

/-- `suggest_declared_unused` (`src/diagnostics/suggestions.rs:895-906`). -/
def suggest_declared_unused (err : TsError) : Option Suggestion := do
  let unusedDecl ← extract_first_quoted err.message
  let u := unusedDecl.asString
  pure { suggestions := [s!"`{u}` is unused"],
         help := some s!"Consider removing the reference to `{u}`",
         span := none }

/-- `suggest_no_exported_member` (`src/diagnostics/suggestions.rs:908-923`):
both the quoted value at occurrence 3 and the one at occurrence 5 are
required (the Rust `?`s fire while the struct is being built). -/
def suggest_no_exported_member (err : TsError) : Option Suggestion := do
  let nonExportedMember ← extract_quoted_value err.message 3
  let potentialCorrection ← extract_quoted_value err.message 5
  let n := nonExportedMember.asString
  let p := potentialCorrection.asString
  pure { suggestions := [s!"`{n}` is not exported from the module."],
         help := some s!"Did you mean to import `{p}`?",
         span := none }

/-- `suggest_imported_unused` (`src/diagnostics/suggestions.rs:925-931`). -/
def suggest_imported_unused : Option Suggestion :=
  some { suggestions := ["This import is unused"],
         help := some "Consider removing it",
         span := none }

/-- `suggest_invalid_default_import` (`src/diagnostics/suggestions.rs:933-945`). -/
def suggest_invalid_default_import : Option Suggestion :=
  some { suggestions :=
          ["`esModuleInterop` is missing from compiler configuration, default imports are not allowed."],
         help := some "Enable compiler flag `esModuleInterop` to allow default imports for this module.",
         span := none }

/-- `ErrorCode::suggest`, the dispatcher
(`src/diagnostics/suggestions.rs:29-88`).  `iterOrder` is the `HashMap`
iteration order threaded to `parse_ts2345_error` (only the
`InlineTypeMismatch` handler consults it). -/
def ErrorCode.suggest (code : ErrorCode) (err : TsError) (tokens : List Token)
    (iterOrder : List (List Char)) : Option Suggestion :=
  match code with
  | .TypeMismatch => suggest_type_mismatch err tokens
  | .InlineTypeMismatch => suggest_inline_type_mismatch iterOrder err
  | .MissingParameters => suggest_missing_parameters err tokens
  | .NoImplicitAny => suggest_no_implicit_any err
  | .PropertyMissingInType => suggest_property_missing_in_type err tokens
  | .UnintentionalComparison => suggest_unintentional_comparison
  | .PropertyDoesNotExist => suggest_property_does_not_exist err
  | .ObjectIsPossiblyUndefined => suggest_possibly_undefined err
  | .DirectCastPotentiallyMistaken => suggest_direct_cast_mistaken err
  | .SpreadArgumentMustBeTupleType => suggest_spread_tuple
  | .RightSideArithmeticMustBeEnumberable => suggest_right_arithmetic
  | .LeftSideArithmeticMustBeEnumberable => suggest_left_arithmetic
  | .IncompatibleOverload => suggest_incompatible_overload
  | .InvalidShadowInScope => suggest_invalid_shadow err
  | .NonExistentModuleImport => suggest_nonexistent_module err
  | .ReadonlyPropertyAssignment => suggest_readonly_property err
  | .IncorrectInterfaceImplementation => suggest_incorrect_interface err
  | .PropertyInClassNotAssignableToBase => suggest_property_not_assignable err
  | .CannotFindIdentifier => suggest_cannot_find_identifier err
  | .MissingReturnValue => suggest_missing_return
  | .UncallableExpression => suggest_uncallable_expression err
  | .InvalidIndexType => suggest_invalid_index_type err
  | .InvalidIndexTypeSignature => suggest_invalid_index_signature err tokens
  | .TypoPropertyOnType => suggest_typo_property err
  | .ObjectIsPossiblyNull => suggest_possibly_null err
  | .ObjectIsUnknown => suggest_object_unknown err
  | .UnterminatedStringLiteral => suggest_unterminated_string err
  | .IdentifierExpected => suggest_identifier_expected
  | .DisallowedTrailingComma => suggest_disallowed_comma
  | .SpreadParameterMustBeLast => suggest_spread_parameter_last
  | .ExpressionExpected => suggest_expression_expected
  | .UniqueObjectMemberNames => suggest_unique_members
  | .UninitializedConst => suggest_uninitialized_const err tokens
  | .YieldNotInGenerator => suggest_yield_not_in_generator
  | .JsxFlagNotProvided => suggest_jsx_flag
  | .DeclaredButNeverUsed => suggest_declared_unused err
  | .NoExportedMember => suggest_no_exported_member err
  | .ImportedButNeverUsed => suggest_imported_unused
  | .InvalidDefaultImport => suggest_invalid_default_import
  | .UnreachableCode => suggest_unreachable
  | .TypeAssertionInJsNotAllowed => suggest_type_assertion_in_js_not_allowed
  | .MappedTypeMustBeStatic => suggest_mapped_type_must_be_static
  | .ElementImplicitAnyInvalidIndexTypeForObject =>
    suggest_element_implicit_any_invalid_index_type_for_object err
  | .MissingJsxIntrinsicElementsDeclaration =>
    suggest_missing_jsx_intrinsic_elements_declaration
  | .ConstEnumsDisallowed => suggest_const_enums_disallowed
  | .JsxModuleNotSet => suggest_jsx_not_set err
  | .UnexpectedKeywordOrIdentifier => suggest_unexpected_kw_or_identifier err tokens
  | .Unsupported _ => none

/-! ## Characterisations of `parse_ts2322_error` -/

/-- The specification's reading of `parse_ts2322_error`, written out from
its words: take the *last* occurrence of `"ype '"` that is *preceded by a
`t` or `T`* and is immediately followed by a quoted value, read that quoted
value as `from`, then the next quoted value anywhere after it as `to`,
returning `none` when either quoted value is absent. -/
def parse_ts2322_spec_claim (msg : List Char) : Option (List Char × List Char) :=
  let anchors := (List.range msg.length).filter fun i =>
    1 ≤ i ∧ ("ype '".toList).isPrefixOf (msg.drop i) ∧
    (msg.get? (i - 1) = some 't' ∨ msg.get? (i - 1) = some 'T') ∧
    containsSub ['\''] (msg.drop (i + 5))
  match anchors.getLast? with
  | none => none
  | some i =>
    let afterOpen := msg.drop (i + 5)
    let fro := afterOpen.takeWhile (· ≠ '\'')
    let rest := (afterOpen.dropWhile (· ≠ '\'')).tail
    if containsSub ['\''] rest then
      let afterSecondOpen := (rest.dropWhile (· ≠ '\'')).tail
      if containsSub ['\''] afterSecondOpen then
        some (fro, afterSecondOpen.takeWhile (· ≠ '\''))
      else none
    else none

/-- Index of the *first* occurrence of `"ype '"` in `msg` at a position
`≥ 1` (i.e. preceded by at least one character, of any value): the anchor
`parse_ts2322_error` actually uses. -/
def ts2322AnchorIdx : List Char → Option Nat
  | [] => none
  | _ :: rest =>
    if ("ype '".toList).isPrefixOf rest then some 1
    else (ts2322AnchorIdx rest).map (· + 1)

/-- The amended reading of `parse_ts2322_error`: at the *first* `"ype '"`
occurrence preceded by at least one character (no `t`/`T` requirement),
read `from` up to the next apostrophe (or end of input), and `to` as the
text between the following two apostrophes (the second may be missing, in
which case `to` runs to end of input); `none` when no apostrophe at all
follows `from`. -/
def parse_ts2322_amended (msg : List Char) : Option (List Char × List Char) :=
  match ts2322AnchorIdx msg with
  | none => none
  | some i =>
    let afterOpen := msg.drop (i + 5)
    let fro := afterOpen.takeWhile (· ≠ '\'')
    let rest := (afterOpen.dropWhile (· ≠ '\'')).tail
    match rest.dropWhile (· ≠ '\'') with
    | [] => none
    | _ :: r => some (fro, r.takeWhile (· ≠ '\''))

/-! ## Claim theorems -/

/-- The input refuting C2's anchor choice: the first `"ype '"` occurrence is
preceded by `h`, the last one by `t`. -/
def c2Msg : List Char := "hype 'a' x 'b' type 'c' y 'd'".toList

/-- A TS2345 message with two mismatched properties, used to exhibit the
dependence of the mismatch-list order on the `HashMap` iteration order. -/
def c3Msg : List Char :=
  ("Argument of type '{ a: string; b: string }' is not assignable to " ++
   "parameter of type '{ a: number; b: number }'.").toList

/-- The diagnostic and token sequence exhibiting C1's broken call site:
source `x yz`, diagnostic column 1 (1-indexed, i.e. the `x`). -/
def c1Tokens : List Token := tokenize asciiClasses ("x yz".toList)

/-- The diagnostic for the C1 failing input. -/
def c1Err : TsError :=
  { file := "a.ts", line := 1, column := 1,
    code := .UnexpectedKeywordOrIdentifier, message := [] }

/-- The diagnostic line of the C7 end-to-end check. -/
def c7Line : List Char :=
  "src/index.ts(10,5): error TS2322: Type 'string' is not assignable to type 'number'.".toList

/-- The message of the C7 diagnostic. -/
def c7Msg : List Char :=
  "Type 'string' is not assignable to type 'number'.".toList

/-! ## Theorems -/

/-- No segment produced by `splitCh` contains the separator. -/
theorem splitCh_no_sep (sep : Char) (l : List Char) :
    ∀ s ∈ splitCh sep l, sep ∉ s := by
  induction l with
  | nil => intro s hs; simp [splitCh] at hs; simp [hs]
  | cons c rest ih =>
    intro s hs
    simp only [splitCh, List.splitOn, List.splitOnP_cons] at hs ih
    by_cases hc : c = sep
    · rw [if_pos (by simp [hc])] at hs
      rcases List.mem_cons.mp hs with hs | hs
      · simp [hs]
      · exact ih s hs
    · rw [if_neg (by simp [hc])] at hs
      cases h : List.splitOnP (· == sep) rest with
      | nil => exact absurd h (List.splitOnP_ne_nil _ rest)
      | cons t ts =>
        rw [h] at hs ih
        rcases List.mem_cons.mp hs with hs | hs
        · subst hs
          intro hmem
          rcases List.mem_cons.mp hmem with h1 | h1
          · exact hc h1.symm
          · exact ih t (by simp) h1
        · exact ih s (by simp [hs])

/-- Joining the segments of `splitCh` with the separator restores the
input (Mathlib's `intercalate_splitOn`, restated for the embedding). -/
theorem joinCh_splitCh (sep : Char) (l : List Char) :
    List.intercalate [sep] (splitCh sep l) = l :=
  List.intercalate_splitOn ..

theorem rfindSubAux_some (needle hay : List Char) (i k : Nat) :
    rfindSubAux needle hay i = some k →
      needle.isPrefixOf (hay.drop k) ∧ k ≤ i ∧
      ∀ j, j ≤ i → needle.isPrefixOf (hay.drop j) → j ≤ k := by
  induction i with
  | zero =>
    intro h
    rw [rfindSubAux] at h
    by_cases hp : needle.isPrefixOf hay
    · rw [if_pos hp] at h
      cases h
      exact ⟨by simpa using hp, le_refl _, fun j hj _ => hj⟩
    · rw [if_neg hp] at h
      cases h
  | succ n ih =>
    intro h
    rw [rfindSubAux] at h
    by_cases hp : needle.isPrefixOf (hay.drop (n + 1))
    · rw [if_pos hp] at h
      cases h
      exact ⟨hp, le_refl _, fun j hj _ => hj⟩
    · rw [if_neg hp] at h
      rcases ih h with ⟨h1, h2, h3⟩
      refine ⟨h1, Nat.le_succ_of_le h2, fun j hj hpre => ?_⟩
      rcases Nat.lt_succ_iff_lt_or_eq.mp (Nat.lt_succ_of_le hj) with hlt | heq
      · exact h3 j (Nat.lt_succ_iff.mp hlt) hpre
      · exact absurd (heq ▸ hpre) hp

theorem rfindSubAux_none (needle hay : List Char) (i : Nat) :
    rfindSubAux needle hay i = none →
      ∀ j, j ≤ i → ¬ needle.isPrefixOf (hay.drop j) := by
  induction i with
  | zero =>
    intro h j hj
    interval_cases j
    rw [rfindSubAux] at h
    by_cases hp : needle.isPrefixOf hay
    · rw [if_pos hp] at h; cases h
    · simpa using hp
  | succ n ih =>
    intro h j hj
    rw [rfindSubAux] at h
    by_cases hp : needle.isPrefixOf (hay.drop (n + 1))
    · rw [if_pos hp] at h; cases h
    · rw [if_neg hp] at h
      rcases Nat.lt_succ_iff_lt_or_eq.mp (Nat.lt_succ_of_le hj) with hlt | heq
      · exact ih h j (Nat.lt_succ_iff.mp hlt)
      · exact heq ▸ hp

/-- A nonempty pattern can only occur at an index strictly inside the text. -/
theorem prefix_drop_lt_length {needle hay : List Char} {j : Nat}
    (hne : needle ≠ []) (h : needle.isPrefixOf (hay.drop j)) : j < hay.length := by
  by_contra hj
  rw [List.drop_eq_nil_of_le (Nat.le_of_not_lt hj)] at h
  rw [List.isPrefixOf_iff_prefix] at h
  exact hne (List.prefix_nil.mp h)

/-- `rfindSub` finds the *last* occurrence: soundness and maximality. -/
theorem rfindSub_some (needle hay : List Char) (k : Nat) (hne : needle ≠ [])
    (h : rfindSub needle hay = some k) :
    needle.isPrefixOf (hay.drop k) ∧
    ∀ j, needle.isPrefixOf (hay.drop j) → j ≤ k := by
  rcases rfindSubAux_some needle hay hay.length k h with ⟨h1, _, h3⟩
  exact ⟨h1, fun j hj =>
    h3 j (Nat.le_of_lt (prefix_drop_lt_length hne hj)) hj⟩

theorem rfindSub_none (needle hay : List Char) (hne : needle ≠ [])
    (h : rfindSub needle hay = none) :
    ∀ j, ¬ needle.isPrefixOf (hay.drop j) := by
  intro j hj
  exact rfindSubAux_none needle hay hay.length h j
    (Nat.le_of_lt (prefix_drop_lt_length hne hj)) hj

theorem skipWhitespace_spec : ∀ (l : List Char) (pos line col : Nat),
    pos ≤ (skipWhitespace l pos line col).pos ∧
    (skipWhitespace l pos line col).rem.length ≤ l.length := by
  intro l
  induction l with
  | nil => intro pos line col; exact ⟨le_refl _, le_refl _⟩
  | cons c rest ih =>
    intro pos line col
    unfold skipWhitespace
    split
    · split
      · rcases ih (pos + c.utf8Size) (line + 1) 0 with ⟨h1, h2⟩
        exact ⟨le_trans (Nat.le_add_right _ _) h1, le_trans h2 (Nat.le_succ _)⟩
      · rcases ih (pos + c.utf8Size) line (col + 1) with ⟨h1, h2⟩
        exact ⟨le_trans (Nat.le_add_right _ _) h1, le_trans h2 (Nat.le_succ _)⟩
    · exact ⟨le_refl _, le_refl _⟩

theorem skipCommentBody_spec : ∀ (l : List Char) (pos line col : Nat),
    pos ≤ (skipCommentBody l pos line col).pos ∧
    (skipCommentBody l pos line col).rem.length ≤ l.length := by
  intro l
  induction l with
  | nil => intro pos line col; exact ⟨le_refl _, le_refl _⟩
  | cons c rest ih =>
    intro pos line col
    unfold skipCommentBody
    split
    · exact ⟨Nat.le_add_right _ _, Nat.le_succ _⟩
    · rcases ih (pos + c.utf8Size) line col with ⟨h1, h2⟩
      exact ⟨le_trans (Nat.le_add_right _ _) h1, le_trans h2 (Nat.le_succ _)⟩

theorem skipCommentAfter_spec (st1 : LexState) :
    st1.pos ≤ (skipCommentAfter st1).pos ∧
    (skipCommentAfter st1).rem.length ≤ st1.rem.length := by
  unfold skipCommentAfter
  split
  · rename_i body heq
    rcases skipCommentBody_spec body (st1.pos + 2) st1.line st1.col with ⟨h1, h2⟩
    refine ⟨le_trans (Nat.le_add_right _ _) h1, le_trans h2 ?_⟩
    rw [heq]
    simp
    omega
  · exact ⟨le_refl _, le_refl _⟩

theorem skipStuffStep_spec (st : LexState) :
    st.pos ≤ (skipStuffStep st).pos ∧
    (skipStuffStep st).rem.length ≤ st.rem.length := by
  unfold skipStuffStep
  rcases skipWhitespace_spec st.rem st.pos st.line st.col with ⟨h1, h2⟩
  rcases skipCommentAfter_spec (skipWhitespace st.rem st.pos st.line st.col) with ⟨h3, h4⟩
  exact ⟨le_trans h1 h3, le_trans h4 h2⟩

theorem skipStuffFuel_spec : ∀ (fuel : Nat) (st : LexState),
    st.pos ≤ (skipStuffFuel fuel st).pos ∧
    (skipStuffFuel fuel st).rem.length ≤ st.rem.length := by
  intro fuel
  induction fuel with
  | zero => intro st; exact ⟨le_refl _, le_refl _⟩
  | succ n ih =>
    intro st
    unfold skipStuffFuel
    rcases skipStuffStep_spec st with ⟨h1, h2⟩
    split
    · rcases ih (skipStuffStep st) with ⟨h3, h4⟩
      exact ⟨le_trans h1 h3, le_trans h4 h2⟩
    · exact ⟨h1, h2⟩

theorem skip_stuff_spec (st : LexState) :
    st.pos ≤ (skip_stuff st).pos ∧
    (skip_stuff st).rem.length ≤ st.rem.length :=
  skipStuffFuel_spec (st.rem.length + 1) st

/-- Fuel irrelevance for the `skip_stuff` loop: any fuel exceeding the
number of remaining characters reaches the loop's fixpoint, so
`skip_stuff`'s choice of `st.rem.length + 1` models the Rust
`loop`/`break` exactly. -/
theorem skipStuffFuel_irrelevant : ∀ (n m : Nat) (st : LexState),
    st.rem.length < n → st.rem.length < m →
    skipStuffFuel n st = skipStuffFuel m st := by
  intro n
  induction n with
  | zero => intro m st h; omega
  | succ n ih =>
    intro m st hn hm
    cases m with
    | zero => omega
    | succ m =>
      unfold skipStuffFuel
      split
      · rename_i hprog
        exact ih m (skipStuffStep st) (by omega) (by omega)
      · rfl

theorem read_identifier_spec (cc : CharClasses) : ∀ (l : List Char) (pos line col : Nat),
    pos ≤ (read_identifier cc l pos line col).2.pos ∧
    (read_identifier cc l pos line col).2.rem.length ≤ l.length := by
  intro l
  induction l with
  | nil => intro pos line col; exact ⟨le_refl _, le_refl _⟩
  | cons c rest ih =>
    intro pos line col
    unfold read_identifier
    split
    · rcases ih (pos + c.utf8Size) line (col + 1) with ⟨h1, h2⟩
      exact ⟨le_trans (Nat.le_add_right _ _) h1, le_trans h2 (Nat.le_succ _)⟩
    · exact ⟨le_refl _, le_refl _⟩

theorem read_identifier_cons (cc : CharClasses) (c : Char) (rest : List Char)
    (pos line col : Nat) (hc : (cc.isAlphabetic c || cc.isNumeric c || c = '_') = true) :
    pos + c.utf8Size ≤ (read_identifier cc (c :: rest) pos line col).2.pos ∧
    (read_identifier cc (c :: rest) pos line col).2.rem.length ≤ rest.length := by
  unfold read_identifier
  rw [if_pos hc]
  exact read_identifier_spec cc rest (pos + c.utf8Size) line (col + 1)

theorem read_number_spec : ∀ (l : List Char) (pos line col : Nat),
    pos ≤ (read_number l pos line col).2.pos ∧
    (read_number l pos line col).2.rem.length ≤ l.length := by
  intro l
  induction l with
  | nil => intro pos line col; exact ⟨le_refl _, le_refl _⟩
  | cons c rest ih =>
    intro pos line col
    unfold read_number
    split
    · rcases ih (pos + c.utf8Size) line (col + 1) with ⟨h1, h2⟩
      exact ⟨le_trans (Nat.le_add_right _ _) h1, le_trans h2 (Nat.le_succ _)⟩
    · exact ⟨le_refl _, le_refl _⟩

theorem read_number_cons (c : Char) (rest : List Char) (pos line col : Nat)
    (hc : (c.isDigit || c = '.') = true) :
    pos + c.utf8Size ≤ (read_number (c :: rest) pos line col).2.pos ∧
    (read_number (c :: rest) pos line col).2.rem.length ≤ rest.length := by
  unfold read_number
  rw [if_pos hc]
  exact read_number_spec rest (pos + c.utf8Size) line (col + 1)

theorem read_string_literal_bounded (quote : Char) : ∀ (n : Nat) (l : List Char),
    l.length ≤ n → ∀ (pos line col : Nat),
    pos ≤ (read_string_literal quote l pos line col).pos ∧
    (read_string_literal quote l pos line col).rem.length ≤ l.length := by
  intro n
  induction n with
  | zero =>
    intro l hl pos line col
    rw [Nat.le_zero, List.length_eq_zero] at hl
    subst hl
    exact ⟨le_refl _, le_refl _⟩
  | succ n ih =>
    intro l hl pos line col
    cases l with
    | nil => exact ⟨le_refl _, le_refl _⟩
    | cons c rest =>
      unfold read_string_literal
      split
      · split
        · exact ⟨Nat.le_add_right _ _, by simp⟩
        · rename_i c2 rest2
          have hlen : rest2.length ≤ n := by
            simp only [List.length_cons] at hl ⊢
            omega
          rcases ih rest2 hlen (pos + c.utf8Size + c2.utf8Size) line (col + 2) with ⟨h1, h2⟩
          refine ⟨by omega, le_trans h2 ?_⟩
          simp
          omega
      · split
        · exact ⟨Nat.le_add_right _ _, Nat.le_succ _⟩
        · have hlen : rest.length ≤ n := by
            simp only [List.length_cons] at hl
            omega
          rcases ih rest hlen (pos + c.utf8Size) line (col + 1) with ⟨h1, h2⟩
          exact ⟨le_trans (Nat.le_add_right _ _) h1, le_trans h2 (Nat.le_succ _)⟩

theorem read_string_literal_spec (quote : Char) (l : List Char) (pos line col : Nat) :
    pos ≤ (read_string_literal quote l pos line col).pos ∧
    (read_string_literal quote l pos line col).rem.length ≤ l.length :=
  read_string_literal_bounded quote l.length l (le_refl _) pos line col

set_option maxHeartbeats 1000000 in
theorem nextFrom_none (cc : CharClasses) (st1 : LexState)
    (h : nextFrom cc st1 = none) : st1.rem = [] := by
  unfold nextFrom at h
  split at h
  · assumption
  · split_ifs at h

theorem advance1_facts (c : Char) (rest : List Char) (st1 : LexState)
    (heq : st1.rem = c :: rest) :
    st1.pos < (advance1 c rest st1).pos ∧
    (advance1 c rest st1).rem.length < st1.rem.length := by
  have := Char.utf8Size_pos c
  constructor
  · simp only [advance1]
    omega
  · simp only [advance1, heq, List.length_cons]
    omega

set_option maxHeartbeats 2000000 in
theorem nextFrom_spec (cc : CharClasses) (st1 : LexState) (t : Token) (st' : LexState)
    (h : nextFrom cc st1 = some (t, st')) :
    t.start = st1.pos ∧ t.endPos = st'.pos ∧
    st1.pos < st'.pos ∧ st'.rem.length < st1.rem.length := by
  unfold nextFrom at h
  split at h
  · exact Option.noConfusion h
  · rename_i c rest heq
    have hc1 : (0 : Nat) < c.utf8Size := Char.utf8Size_pos c
    generalize (if is_keyword (read_identifier cc st1.rem st1.pos st1.line st1.col).1
      then TokenKind.Keyword else TokenKind.Identifier) = kd at h
    split_ifs at h with h1 h2 h3 h4 h5 h6 h7 h8 h9 h10 <;>
      (simp only [Option.some.injEq, Prod.mk.injEq] at h
       obtain ⟨rfl, rfl⟩ := h)
    -- `(` branch
    · exact ⟨rfl, rfl, (advance1_facts c rest st1 heq).1, (advance1_facts c rest st1 heq).2⟩
    -- `)` branch
    · exact ⟨rfl, rfl, (advance1_facts c rest st1 heq).1, (advance1_facts c rest st1 heq).2⟩
    -- symbol-punctuation branch
    · exact ⟨rfl, rfl, (advance1_facts c rest st1 heq).1, (advance1_facts c rest st1 heq).2⟩
    -- `:` branch
    · exact ⟨rfl, rfl, (advance1_facts c rest st1 heq).1, (advance1_facts c rest st1 heq).2⟩
    -- `,` branch
    · exact ⟨rfl, rfl, (advance1_facts c rest st1 heq).1, (advance1_facts c rest st1 heq).2⟩
    -- `<` branch
    · exact ⟨rfl, rfl, (advance1_facts c rest st1 heq).1, (advance1_facts c rest st1 heq).2⟩
    -- `>` branch
    · exact ⟨rfl, rfl, (advance1_facts c rest st1 heq).1, (advance1_facts c rest st1 heq).2⟩
    -- string-literal branch
    · rcases read_string_literal_spec c rest (st1.pos + c.utf8Size) st1.line (st1.col + 1)
        with ⟨hp, hr⟩
      refine ⟨rfl, rfl, by omega, ?_⟩
      rw [heq]
      simp only [List.length_cons]
      omega
    -- identifier branch
    · have hcont : (cc.isAlphabetic c || cc.isNumeric c || c = '_') = true := by
        rcases Bool.or_eq_true _ _ |>.mp h9 with ha | hu
        · simp [ha]
        · simp [hu]
      rcases read_identifier_cons cc c rest st1.pos st1.line st1.col hcont with ⟨hp, hr⟩
      rw [show read_identifier cc st1.rem st1.pos st1.line st1.col =
        read_identifier cc (c :: rest) st1.pos st1.line st1.col by rw [heq]] at *
      refine ⟨rfl, rfl, by omega, ?_⟩
      rw [heq]
      simp only [List.length_cons]
      omega
    -- number branch
    · have hdig : (c.isDigit || c = '.') = true := by simp [h10]
      rcases read_number_cons c rest st1.pos st1.line st1.col hdig with ⟨hp, hr⟩
      rw [show read_number st1.rem st1.pos st1.line st1.col =
        read_number (c :: rest) st1.pos st1.line st1.col by rw [heq]] at *
      refine ⟨rfl, rfl, by omega, ?_⟩
      rw [heq]
      simp only [List.length_cons]
      omega
    -- default (unrecognized byte) branch
    · exact ⟨rfl, rfl, (advance1_facts c rest st1 heq).1, (advance1_facts c rest st1 heq).2⟩

theorem nextToken_spec (cc : CharClasses) (st : LexState) (t : Token) (st' : LexState)
    (h : nextToken cc st = some (t, st')) :
    st.pos ≤ t.start ∧ t.start < t.endPos ∧ t.endPos = st'.pos ∧
    st.pos < st'.pos ∧ st'.rem.length < st.rem.length := by
  rcases nextFrom_spec cc (skip_stuff st) t st' h with ⟨h1, h2, h3, h4⟩
  rcases skip_stuff_spec st with ⟨h5, h6⟩
  exact ⟨h1 ▸ h5, by omega, h2, by omega, by omega⟩

theorem tokenizeFuel_spans (cc : CharClasses) : ∀ (fuel : Nat) (st : LexState),
    List.Pairwise (fun a b => a.endPos ≤ b.start ∧ a.start < b.start)
      (tokenizeFuel cc fuel st) ∧
    ∀ t ∈ tokenizeFuel cc fuel st, st.pos ≤ t.start ∧ t.start < t.endPos := by
  intro fuel
  induction fuel with
  | zero => intro st; simp [tokenizeFuel]
  | succ n ih =>
    intro st
    unfold tokenizeFuel
    cases hn : nextToken cc st with
    | none => simp
    | some pair =>
      obtain ⟨t, st'⟩ := pair
      obtain ⟨hstart, hlt, hend, hpos, _⟩ := nextToken_spec cc st t st' hn
      obtain ⟨ihp, ihm⟩ := ih st'
      constructor
      · rw [List.pairwise_cons]
        refine ⟨fun u hu => ?_, ihp⟩
        obtain ⟨hu1, hu2⟩ := ihm u hu
        refine ⟨by omega, by omega⟩
      · intro u hu
        rcases List.mem_cons.mp hu with rfl | hu
        · exact ⟨hstart, hlt⟩
        · obtain ⟨hu1, hu2⟩ := ihm u hu
          exact ⟨by omega, hu2⟩

/-- Fuel irrelevance for `tokenizeFuel`: any fuel exceeding the number of
remaining characters computes the same token list, so `tokenize`'s choice
of `src.length + 1` is exactly the Rust `while let` fixpoint. -/
theorem tokenizeFuel_irrelevant (cc : CharClasses) : ∀ (n m : Nat) (st : LexState),
    st.rem.length < n → st.rem.length < m →
    tokenizeFuel cc n st = tokenizeFuel cc m st := by
  intro n
  induction n with
  | zero => intro m st h; omega
  | succ n ih =>
    intro m st hn hm
    cases m with
    | zero => omega
    | succ m =>
      unfold tokenizeFuel
      cases hx : nextToken cc st with
      | none => rfl
      | some pair =>
        obtain ⟨t, st'⟩ := pair
        obtain ⟨_, _, _, _, hrem⟩ := nextToken_spec cc st t st' hx
        show t :: tokenizeFuel cc n st' = t :: tokenizeFuel cc m st'
        rw [ih m st' (by omega) (by omega)]

/-- C5: `tokenize` (a total function here, so termination is by
construction, with `tokenizeFuel_irrelevant` showing the fuel encoding
reaches the Rust loop's fixpoint) never fails: `next` returns `none` only
when, after skipping whitespace and comments, the input is exhausted;
every emitted token strictly advances the byte position; and an
unrecognized character — one that is not punctuation, not a quote, not an
identifier start, not a digit — still yields a one-character `Symbol`
token that advances by exactly that character's UTF-8 size. -/
theorem next_progress (cc : CharClasses) (st : LexState) :
    (nextToken cc st = none → (skip_stuff st).rem = []) ∧
    (∀ t st', nextToken cc st = some (t, st') → st.pos < st'.pos) ∧
    (∀ c rest, (skip_stuff st).rem = c :: rest →
      ¬(c = '(') → ¬(c = ')') →
      ¬(c = '{' ∨ c = '}' ∨ c = '[' ∨ c = ']' ∨ c = ';' ∨ c = '.') →
      ¬(c = ':') → ¬(c = ',') → ¬(c = '<') → ¬(c = '>') →
      ¬(c = '"' ∨ c = '\'' ∨ c = '`') →
      ¬((cc.isAlphabetic c || c = '_') = true) → ¬(c.isDigit = true) →
      nextToken cc st = some
        ({ kind := .Symbol, raw := [c], start := (skip_stuff st).pos,
           endPos := (skip_stuff st).pos + c.utf8Size,
           line := (skip_stuff st).line, column := (skip_stuff st).col },
         advance1 c rest (skip_stuff st))) := by
  refine ⟨fun h => nextFrom_none cc (skip_stuff st) h, fun t st' h => ?_, ?_⟩
  · rcases nextToken_spec cc st t st' h with ⟨_, _, _, h4, _⟩
    exact h4
  · intro c rest hrem g1 g2 g3 g4 g5 g6 g7 g8 g9 g10
    unfold nextToken nextFrom
    rw [hrem]
    split
    · rename_i heq2
      exact absurd heq2 (List.cons_ne_nil c rest)
    · rename_i c2 rest2 heq2
      injection heq2 with hc2 hrest2
      subst hc2
      subst hrest2
      rw [if_neg g1, if_neg g2, if_neg g3, if_neg g4, if_neg g5, if_neg g6, if_neg g7,
        if_neg g8, if_neg g9, if_neg g10]
      simp only [mkTok, advance1, hrem, List.length_cons, Nat.add_sub_cancel_left,
        List.take_succ_cons, List.take_zero]

/-- Witness for C5's unrecognized-byte conjunct at the one-character
source `@`. -/
theorem next_progress_witness :
    nextToken asciiClasses (initLexState ("@".toList)) =
      some ({ kind := .Symbol, raw := ['@'],
              start := (skip_stuff (initLexState ("@".toList))).pos,
              endPos := (skip_stuff (initLexState ("@".toList))).pos + '@'.utf8Size,
              line := (skip_stuff (initLexState ("@".toList))).line,
              column := (skip_stuff (initLexState ("@".toList))).col },
            advance1 '@' [] (skip_stuff (initLexState ("@".toList)))) :=
  (next_progress asciiClasses (initLexState ("@".toList))).2.2 '@' []
    (by decide) (by decide) (by decide) (by decide) (by decide) (by decide)
    (by decide) (by decide) (by decide) (by decide) (by decide)

/-- C6: for every input (and every Unicode character classifier), the
tokens produced by `tokenize` are strictly ordered by `start`, each token
has `endPos > start`, and the half-open byte ranges of distinct tokens
never overlap (each token ends no later than the next begins). -/
theorem tokenize_spans_ordered (cc : CharClasses) (src : List Char) :
    List.Pairwise (fun a b => a.endPos ≤ b.start ∧ a.start < b.start)
      (tokenize cc src) ∧
    ∀ t ∈ tokenize cc src, t.start < t.endPos := by
  obtain ⟨hp, hm⟩ := tokenizeFuel_spans cc (src.length + 1) (initLexState src)
  exact ⟨hp, fun t ht => (hm t ht).2⟩

/-- Witness for C6's per-token conjunct at the source `let x`. -/
theorem tokenize_spans_ordered_witness :
    ({ kind := .Keyword, raw := "let".toList, start := 0, endPos := 3,
       line := 1, column := 0 } : Token).start <
    ({ kind := .Keyword, raw := "let".toList, start := 0, endPos := 3,
       line := 1, column := 0 } : Token).endPos :=
  (tokenize_spans_ordered asciiClasses ("let x".toList)).2 _ (by decide)

theorem collectUntilQuote_eq (l : List Char) :
    collectUntilQuote l = (l.takeWhile (· ≠ '\''), (l.dropWhile (· ≠ '\'')).tail) := by
  induction l with
  | nil => rfl
  | cons c rest ih =>
    by_cases hc : c = '\''
    · subst hc; simp [collectUntilQuote, List.takeWhile, List.dropWhile]
    · simp [collectUntilQuote, List.takeWhile, List.dropWhile, hc, ih]

theorem findNextQuoted_eq (l : List Char) :
    findNextQuoted l = match l.dropWhile (· ≠ '\'') with
      | [] => none
      | _ :: r => some (r.takeWhile (· ≠ '\'')) := by
  induction l with
  | nil => rfl
  | cons c rest ih =>
    by_cases hc : c = '\''
    · subst hc
      simp [findNextQuoted, List.dropWhile, collectUntilQuote_eq]
    · simp [findNextQuoted, List.dropWhile, hc, ih]

theorem ts2322Loop_skip {c : Char} {rest : List Char}
    (h : ¬ ("ype '".toList).isPrefixOf rest) :
    ts2322Loop (c :: rest) = ts2322Loop rest := by
  simp only [ts2322Loop]
  rw [if_neg h]

theorem parse_ts2322_amended_skip {c : Char} {rest : List Char}
    (h : ¬ ("ype '".toList).isPrefixOf rest) :
    parse_ts2322_amended (c :: rest) = parse_ts2322_amended rest := by
  unfold parse_ts2322_amended
  rw [show ts2322AnchorIdx (c :: rest) = (ts2322AnchorIdx rest).map (· + 1) by
    simp only [ts2322AnchorIdx]
    rw [if_neg h]]
  cases hA : ts2322AnchorIdx rest with
  | none => rfl
  | some j => simp

/-- C2 (counterexample): on `c2Msg` the specified reading (last `"ype '"`
preceded by `t`/`T`) yields `("c", "d")`, but `parse_ts2322_error` anchors
at the *first* `"ype '"` occurrence regardless of the preceding character
and returns `("a", "b")`. -/
theorem parse_ts2322_error_claim_counterexample :
    parse_ts2322_spec_claim c2Msg = some ("c".toList, "d".toList) ∧
    parse_ts2322_error c2Msg = some ("a".toList, "b".toList) ∧
    (some (("a".toList : List Char), ("b".toList : List Char)) ≠
      some (("c".toList : List Char), ("d".toList : List Char))) := by
  refine ⟨by decide, by decide, by decide⟩

/-- C2 (amended): for every message, `parse_ts2322_error` anchors at the
*first* occurrence of `"ype '"` preceded by at least one character (of any
value), reads the quoted value opened there (up to the next apostrophe or
end of input) as `from`, then returns as `to` the text between the next
apostrophe after it and the following apostrophe (or end of input), and
returns `none` when no such anchor exists or no apostrophe at all follows
`from`. -/
theorem parse_ts2322_error_amended (msg : List Char) :
    parse_ts2322_error msg = parse_ts2322_amended msg := by
  show ts2322Loop msg = parse_ts2322_amended msg
  induction msg with
  | nil => rfl
  | cons c rest ih =>
    by_cases hp : ("ype '".toList).isPrefixOf rest
    · simp only [ts2322Loop]
      rw [if_pos hp]
      unfold parse_ts2322_amended
      rw [show ts2322AnchorIdx (c :: rest) = some 1 by
        simp only [ts2322AnchorIdx]; rw [if_pos hp]]
      simp only [collectUntilQuote_eq, findNextQuoted_eq]
      rw [show (c :: rest).drop (1 + 5) = rest.drop 5 from rfl]
      cases ((rest.drop 5).dropWhile (· ≠ '\'')).tail.dropWhile (· ≠ '\'') <;> rfl
    · rw [ts2322Loop_skip hp, parse_ts2322_amended_skip hp]
      exact ih

/-- C4: for every `ErrorCode` variant other than `Unsupported`, converting
to the code string with `as_str` and classifying back with `from_str`
yields the original variant. -/
theorem errorCode_roundtrip (e : ErrorCode) (h : e.isUnsupported = false) :
    ErrorCode.fromStr (ErrorCode.asStr e) = e := by
  cases e <;> first | rfl | exact absurd h (by simp [ErrorCode.isUnsupported])

/-- Witness for C4 at the `TypeMismatch` variant. -/
theorem errorCode_roundtrip_witness :
    ErrorCode.isUnsupported .TypeMismatch = false ∧
    ErrorCode.fromStr (ErrorCode.asStr .TypeMismatch) = .TypeMismatch :=
  ⟨rfl, errorCode_roundtrip .TypeMismatch rfl⟩

/-- C8: `extract_quoted_value msg occurrence` is the `occurrence`-indexed
segment of `msg` split on the apostrophe (a genuine splitting: joining the
segments with apostrophes restores the message, and no segment contains an
apostrophe); `extract_first_quoted`/`second`/`third` are occurrences 1, 3
and 5; and the quoted contents of the documented example come out as `foo`
and `Bar`. -/
theorem extract_quoted_value_spec :
    (∀ msg occurrence, extract_quoted_value msg occurrence =
      (splitCh '\'' msg).get? occurrence) ∧
    (∀ msg, List.intercalate ['\''] (splitCh '\'' msg) = msg ∧
      (splitCh '\'' msg).all (fun s => !s.contains '\'') = true) ∧
    (∀ msg, extract_first_quoted msg = extract_quoted_value msg 1 ∧
      extract_second_quoted msg = extract_quoted_value msg 3 ∧
      extract_third_quoted msg = extract_quoted_value msg 5) ∧
    extract_first_quoted ("Property 'foo' does not exist on type 'Bar'".toList) =
      some ("foo".toList) ∧
    extract_second_quoted ("Property 'foo' does not exist on type 'Bar'".toList) =
      some ("Bar".toList) := by
  refine ⟨fun _ _ => rfl, fun msg => ⟨joinCh_splitCh '\'' msg, ?_⟩,
    fun _ => ⟨rfl, rfl, rfl⟩, by decide, by decide⟩
  rw [List.all_eq_true]
  intro s hs
  simpa using splitCh_no_sep '\'' msg s hs

/-- C9: `parse_property_missing_error` anchors at the *last* occurrence of
`"type '"` (soundness and maximality of the anchor), returns the quoted
value immediately after it, returns `none` when the marker is absent, and
on the documented example returns `OtherType` (the last occurrence, not the
first). -/
theorem parse_property_missing_error_spec :
    (∀ msg v, parse_property_missing_error msg = some v →
      ∃ i, ("type '".toList).isPrefixOf (msg.drop i) ∧
        (∀ j, ("type '".toList).isPrefixOf (msg.drop j) → j ≤ i) ∧
        v = (msg.drop (i + 6)).takeWhile (· ≠ '\'') ∧
        containsSub ['\''] (msg.drop (i + 6)) = true) ∧
    (∀ msg, (∀ j, ¬ ("type '".toList).isPrefixOf (msg.drop j)) →
      parse_property_missing_error msg = none) ∧
    parse_property_missing_error
      ("Property 'x' is missing in type 'MyType' but required in type 'OtherType'.".toList) =
      some ("OtherType".toList) := by
  refine ⟨?_, ?_, by decide⟩
  · intro msg v h
    unfold parse_property_missing_error at h
    split at h
    · cases h
    · rename_i i hr
      split at h
      · rename_i hc
        rcases rfindSub_some _ msg i (by decide) hr with ⟨h1, h2⟩
        exact ⟨i, h1, h2, ((Option.some.injEq _ _).mp h).symm, hc⟩
      · cases h
  · intro msg hnone
    unfold parse_property_missing_error
    cases hr : rfindSub ('t' :: 'y' :: 'p' :: 'e' :: ' ' :: '\'' :: []) msg with
    | none => rfl
    | some i =>
      exact absurd (rfindSub_some _ msg i (by decide) hr).1 (hnone i)

/-- Witness for C9 at the documented example message. -/
theorem parse_property_missing_error_spec_witness :
    ∃ i, ("type '".toList).isPrefixOf
      (("Property 'x' is missing in type 'MyType' but required in type 'OtherType'.".toList).drop i) ∧
      (∀ j, ("type '".toList).isPrefixOf
        (("Property 'x' is missing in type 'MyType' but required in type 'OtherType'.".toList).drop j) → j ≤ i) ∧
      ("OtherType".toList) =
        (("Property 'x' is missing in type 'MyType' but required in type 'OtherType'.".toList).drop (i + 6)).takeWhile (· ≠ '\'') ∧
      containsSub ['\'']
        (("Property 'x' is missing in type 'MyType' but required in type 'OtherType'.".toList).drop (i + 6)) = true :=
  parse_property_missing_error_spec.1 _ _ (by decide)

/-- C3 (counterexample): `["b", "a"]` is a legitimate iteration order of
the expected object's property map (a permutation of its key set), and
under it `parse_ts2345_error` returns the mismatch triples in the order
`b, a` — not the declared property order `a, b`. -/
theorem parse_ts2345_order_counterexample :
    List.Perm ["b".toList, "a".toList] (ts2345ExpectedKeys c3Msg) ∧
    parse_ts2345_error_withOrder ["b".toList, "a".toList] c3Msg =
      some [("b".toList, "string".toList, "number".toList),
            ("a".toList, "string".toList, "number".toList)] ∧
    parse_ts2345_error_declared c3Msg =
      some [("a".toList, "string".toList, "number".toList),
            ("b".toList, "string".toList, "number".toList)] ∧
    ([("b".toList, "string".toList, "number".toList),
      ("a".toList, "string".toList, "number".toList)] ≠
     [("a".toList, "string".toList, "number".toList),
      ("b".toList, "string".toList, "number".toList)]) := by
  refine ⟨by decide, by decide, by decide, by decide⟩

/-- C3 (amended): for every message and every legitimate `HashMap`
iteration order (a permutation of the expected object's key set), the
mismatch list returned by `parse_ts2345_error` is a *permutation* of the
list computed in the expected object's declared property order — the
multiset of triples is determined, but their order follows the map's
unspecified iteration order rather than the declared property order. -/
theorem parse_ts2345_order_perm (msg : List Char) (iterOrder : List (List Char))
    (h : iterOrder.Perm (ts2345ExpectedKeys msg))
    (l ld : List (List Char × List Char × List Char))
    (hl : parse_ts2345_error_withOrder iterOrder msg = some l)
    (hld : parse_ts2345_error_declared msg = some ld) :
    l.Perm ld := by
  unfold parse_ts2345_error_declared at hld
  unfold parse_ts2345_error_withOrder at hl hld
  split at hl
  · rename_i providedObj expectedObj hA hE
    rw [hA, hE] at hld
    injection hl with hl
    injection hld with hld
    subst hl hld
    unfold ts2345Mismatches
    exact List.Perm.filterMap _ h
  · cases hl

/-- Witness for C3's amended theorem at `c3Msg` with iteration order
`["b", "a"]`. -/
theorem parse_ts2345_order_perm_witness :
    List.Perm
      [("b".toList, "string".toList, "number".toList),
       ("a".toList, "string".toList, "number".toList)]
      [("a".toList, "string".toList, "number".toList),
       ("b".toList, "string".toList, "number".toList)] :=
  parse_ts2345_order_perm c3Msg ["b".toList, "a".toList] (by decide) _ _
    (by decide) (by decide)

/-- C10: every triple `(property, providedType, expectedType)` returned by
`parse_ts2345_error` (under any iteration order) has a property key present
in *both* parsed object listings, with the provided and expected value
strings attached to that key, and those value strings are unequal; in
particular a property present in only one of the two objects never yields a
triple. -/
theorem ts2345_mismatch_triples_sound (msg : List Char) (iterOrder : List (List Char))
    (l : List (List Char × List Char × List Char))
    (hl : parse_ts2345_error_withOrder iterOrder msg = some l) :
    ∀ t ∈ l, ∃ providedObj expectedObj,
      extract_object_type msg ("Argument of type '".toList) = some providedObj ∧
      extract_object_type msg ("to parameter of type '".toList) = some expectedObj ∧
      lookupAssoc (parse_object_properties providedObj) t.1 = some t.2.1 ∧
      lookupAssoc (parse_object_properties expectedObj) t.1 = some t.2.2 ∧
      t.2.1 ≠ t.2.2 := by
  intro t ht
  unfold parse_ts2345_error_withOrder at hl
  split at hl
  · rename_i providedObj expectedObj hA hE
    refine ⟨providedObj, expectedObj, hA, hE, ?_⟩
    injection hl with hl
    subst hl
    unfold ts2345Mismatches at ht
    rcases List.mem_filterMap.mp ht with ⟨key, _, hf⟩
    split at hf
    · rename_i expectedType providedType hE2 hP2
      by_cases hne : providedType ≠ expectedType
      · rw [if_pos hne] at hf
        injection hf with hf
        subst hf
        exact ⟨hP2, hE2, hne⟩
      · rw [if_neg hne] at hf; cases hf
    · cases hf
  · cases hl

/-- Witness for C10 at `c3Msg` in declared order, at the `a` triple. -/
theorem ts2345_mismatch_triples_sound_witness :
    ∃ providedObj expectedObj,
      extract_object_type c3Msg ("Argument of type '".toList) = some providedObj ∧
      extract_object_type c3Msg ("to parameter of type '".toList) = some expectedObj ∧
      lookupAssoc (parse_object_properties providedObj) ("a".toList) =
        some ("string".toList) ∧
      lookupAssoc (parse_object_properties expectedObj) ("a".toList) =
        some ("number".toList) ∧
      ("string".toList) ≠ ("number".toList) :=
  ts2345_mismatch_triples_sound c3Msg (ts2345ExpectedKeys c3Msg)
    [("a".toList, "string".toList, "number".toList),
     ("b".toList, "string".toList, "number".toList)] (by decide)
    ("a".toList, "string".toList, "number".toList) (by decide)

/-- C1 (code bug, evaluation at the failing input):
`suggest_unexpected_kw_or_identifier` — reachable from the dispatcher for
`UnexpectedKeywordOrIdentifier` — queries `find_token_at_position` with the
raw 1-indexed `err.column`, finds nothing there (column 1 of `x yz` is
whitespace in 0-indexed token coordinates) and produces no suggestion,
while the 0-indexed lookup mandated by the spec (`err.column - 1`) finds
the token `x`; `extract_identifier_at_error` performs the mandated
conversion on the same inputs. -/
theorem unexpected_kw_unadjusted_column :
    ErrorCode.suggest .UnexpectedKeywordOrIdentifier c1Err c1Tokens [] = none ∧
    suggest_unexpected_kw_or_identifier c1Err c1Tokens = none ∧
    find_token_at_position c1Tokens c1Err.line c1Err.column = none ∧
    (find_token_at_position c1Tokens c1Err.line (c1Err.column - 1)).map Token.raw =
      some ("x".toList) ∧
    extract_identifier_at_error c1Err c1Tokens = some ("x".toList) := by
  refine ⟨by decide, by decide, by decide, by decide, by decide⟩

/-- C7: the diagnostic line parses to a TS2322 (`TypeMismatch`) diagnostic
at `src/index.ts:10:5`, and dispatching that diagnostic (with no source
tokens) produces a suggestion whose first line contains both `string` and
`number`. -/
theorem end_to_end_ts2322 :
    (parse c7Line).map (fun e => (e.file, e.line, e.column, e.code)) =
      some ("src/index.ts", 10, 5, CommonErrors.TypeMismatch) ∧
    (parse c7Line).map TsErrorG.message = some c7Msg ∧
    ErrorCode.fromStr "TS2322" = ErrorCode.TypeMismatch ∧
    ∃ s, ErrorCode.suggest .TypeMismatch
        { file := "src/index.ts", line := 10, column := 5,
          code := .TypeMismatch, message := c7Msg } [] [] = some s ∧
      s.suggestions.head? = some "Try converting `` from `string` to `number`." ∧
      containsSub ("string".toList)
        ("Try converting `` from `string` to `number`.".toList) = true ∧
      containsSub ("number".toList)
        ("Try converting `` from `string` to `number`.".toList) = true := by
  refine ⟨by decide, by decide, rfl,
    ⟨{ suggestions := ["Try converting `` from `string` to `number`."],
       help := some "Ensure that the types are compatible or perform an explicit conversion.",
       span := none },
     by decide, by decide, by decide, by decide⟩⟩

end TsCheck

